import Mathlib

/-!
Shallow embedding of the cipher-suite registry and negotiation core of
tls/s2n_cipher_suites.c, together with theorems settling the claims about
its specification.

Conventions of the embedding:
* machine integers become Nat (for unsigned quantities and byte values) or
  Int (for the C int indices that use -1 as a sentinel);
* fallible functions return a pair of the (possibly mutated) connection and
  an optional error, mirroring C functions that mutate through a pointer
  and return an error code;
* collaborator subsystems that live outside this source file (cipher
  availability probes, key-exchange predicates, certificate/auth selection)
  are modelled as boolean-valued parameters or connection fields;
* pointer identity of the two equal-preference sentinel pseudo-suites is
  modelled structurally by the constructors of the Entry type.
-/

namespace S2N

/-! ### Protocol version constants (values from the s2n version enum) -/

def S2N_SSLv2 : Nat := 20
def S2N_SSLv3 : Nat := 30
def S2N_TLS10 : Nat := 31
def S2N_TLS11 : Nat := 32
def S2N_TLS12 : Nat := 33
def S2N_TLS13 : Nat := 34

/-! ### HMAC algorithm constants (values from the s2n hmac enum) -/

def S2N_HMAC_NONE : Nat := 0
def S2N_HMAC_MD5 : Nat := 1
def S2N_HMAC_SHA1 : Nat := 2
def S2N_HMAC_SHA224 : Nat := 3
def S2N_HMAC_SHA256 : Nat := 4
def S2N_HMAC_SHA384 : Nat := 5
def S2N_HMAC_SHA512 : Nat := 6
def S2N_HMAC_SSLv3_MD5 : Nat := 7
def S2N_HMAC_SSLv3_SHA1 : Nat := 8

/-! ### Record algorithm nonce flags (bit flags from s2n_record_algorithm) -/

def S2N_TLS12_AES_GCM_AEAD_NONCE : Nat := 1
def S2N_TLS12_CHACHA_POLY_AEAD_NONCE : Nat := 2
def S2N_TLS13_RECORD_AEAD_NONCE : Nat := 4

def UINT64_MAX : Nat := 2 ^ 64 - 1

/-- Modelled from the spec: AES-GCM in TLS 1.3 has a finite encryption
limit per RFC 8446 section 5.5. The numeric value is defined outside this
source file; no claim depends on it. -/
def S2N_TLS13_AES_GCM_MAXIMUM_RECORD_NUMBER : Nat := 2 ^ 23

/-! ### Error kinds (spec section 7 taxonomy) -/

inductive S2NError where
  | cipher_not_supported
  | fallback_detected
  | illegal_parameter
  | already_done
  | null_ref
  deriving DecidableEq, Repr

/-! ### Bulk-cipher handles

Each record algorithm points at a bulk-cipher primitive whose availability
probe lives outside this source file. The handles are enumerated here; the
probe itself is a parameter of the initializer. -/

inductive CipherId where
  | null_cipher
  | rc4
  | des3
  | aes128
  | aes256
  | aes128_sha
  | aes128_sha256
  | aes256_sha
  | aes256_sha256
  | aes128_gcm
  | aes256_gcm
  | chacha20_poly1305
  | tls13_aes128_gcm
  | tls13_aes256_gcm
  deriving DecidableEq, Repr

structure RecordAlgorithm where
  cipher : CipherId
  hmac_alg : Nat
  flags : Nat := 0
  encryption_limit : Nat
  deriving DecidableEq, Repr

/-! ### Key exchange and authentication descriptors -/

inductive KexAlg where
  | rsa
  | dhe
  | ecdhe
  | hybrid_ecdhe_kem
  deriving DecidableEq, Repr

/-- Modelled from the spec: the collaborator KEX.includes with the KEM
class (s2n_kex_includes with target s2n_kem, defined in tls/s2n_kex.c
which is not under src/). Per the spec a KEX contains a KEM component
exactly when it is the hybrid ECDHE+KEM key exchange. The TLS 1.3 suites
carry a NULL key exchange, modelled as none. -/
def s2n_kex_includes_kem : Option KexAlg → Bool
  | some KexAlg.hybrid_ecdhe_kem => true
  | _ => false

/-- Modelled from the spec: the collaborator KEX.includes with the ECDHE
class (s2n_kex_includes with target s2n_ecdhe). A KEX contains an ECDHE
component when it is plain ECDHE or the hybrid ECDHE+KEM exchange. -/
def s2n_kex_includes_ecdhe : Option KexAlg → Bool
  | some KexAlg.ecdhe => true
  | some KexAlg.hybrid_ecdhe_kem => true
  | _ => false

inductive AuthMethod where
  | rsa
  | ecdsa
  | tls13
  deriving DecidableEq, Repr

/-! ### Cipher suites

Mirrors struct s2n_cipher_suite. The two runtime-mutable fields set by the
initializer, available and record_alg, are ordinary fields here; the static
catalog entries below carry the static initial values (available = false,
record_alg = none, except the null suite). The sslv3_cipher_suite pointer
field is represented outside the structure (a structure cannot contain
itself); see s2n_sslv3_cipher_suite_of below and the shadow-map parameter
of the client-side negotiator. -/

structure CipherSuite where
  available : Bool
  name : String
  iana_value : Nat × Nat
  key_exchange_alg : Option KexAlg
  auth_method : AuthMethod
  record_alg : Option RecordAlgorithm
  all_record_algs : List RecordAlgorithm := []
  sslv3_record_alg : Option RecordAlgorithm := none
  prf_alg : Nat := S2N_HMAC_NONE
  minimum_required_tls_version : Nat := 0
  deriving DecidableEq, Repr

/-! ### Record algorithm catalog (lines 37 to 206 of the source) -/

def s2n_record_alg_null : RecordAlgorithm :=
  { cipher := CipherId.null_cipher, hmac_alg := S2N_HMAC_NONE, flags := 0,
    encryption_limit := UINT64_MAX }

def s2n_record_alg_rc4_md5 : RecordAlgorithm :=
  { cipher := CipherId.rc4, hmac_alg := S2N_HMAC_MD5, flags := 0,
    encryption_limit := UINT64_MAX }

def s2n_record_alg_rc4_sslv3_md5 : RecordAlgorithm :=
  { cipher := CipherId.rc4, hmac_alg := S2N_HMAC_SSLv3_MD5, flags := 0,
    encryption_limit := UINT64_MAX }

def s2n_record_alg_rc4_sha : RecordAlgorithm :=
  { cipher := CipherId.rc4, hmac_alg := S2N_HMAC_SHA1, flags := 0,
    encryption_limit := UINT64_MAX }

def s2n_record_alg_rc4_sslv3_sha : RecordAlgorithm :=
  { cipher := CipherId.rc4, hmac_alg := S2N_HMAC_SSLv3_SHA1, flags := 0,
    encryption_limit := UINT64_MAX }

def s2n_record_alg_3des_sha : RecordAlgorithm :=
  { cipher := CipherId.des3, hmac_alg := S2N_HMAC_SHA1, flags := 0,
    encryption_limit := UINT64_MAX }

def s2n_record_alg_3des_sslv3_sha : RecordAlgorithm :=
  { cipher := CipherId.des3, hmac_alg := S2N_HMAC_SSLv3_SHA1, flags := 0,
    encryption_limit := UINT64_MAX }

def s2n_record_alg_aes128_sha : RecordAlgorithm :=
  { cipher := CipherId.aes128, hmac_alg := S2N_HMAC_SHA1, flags := 0,
    encryption_limit := UINT64_MAX }

def s2n_record_alg_aes128_sslv3_sha : RecordAlgorithm :=
  { cipher := CipherId.aes128, hmac_alg := S2N_HMAC_SSLv3_SHA1, flags := 0,
    encryption_limit := UINT64_MAX }

def s2n_record_alg_aes128_sha_composite : RecordAlgorithm :=
  { cipher := CipherId.aes128_sha, hmac_alg := S2N_HMAC_NONE, flags := 0,
    encryption_limit := UINT64_MAX }

def s2n_record_alg_aes128_sha256 : RecordAlgorithm :=
  { cipher := CipherId.aes128, hmac_alg := S2N_HMAC_SHA256, flags := 0,
    encryption_limit := UINT64_MAX }

def s2n_record_alg_aes128_sha256_composite : RecordAlgorithm :=
  { cipher := CipherId.aes128_sha256, hmac_alg := S2N_HMAC_NONE,
    encryption_limit := UINT64_MAX }

def s2n_record_alg_aes256_sha : RecordAlgorithm :=
  { cipher := CipherId.aes256, hmac_alg := S2N_HMAC_SHA1, flags := 0,
    encryption_limit := UINT64_MAX }

def s2n_record_alg_aes256_sslv3_sha : RecordAlgorithm :=
  { cipher := CipherId.aes256, hmac_alg := S2N_HMAC_SSLv3_SHA1, flags := 0,
    encryption_limit := UINT64_MAX }

def s2n_record_alg_aes256_sha_composite : RecordAlgorithm :=
  { cipher := CipherId.aes256_sha, hmac_alg := S2N_HMAC_NONE, flags := 0,
    encryption_limit := UINT64_MAX }

def s2n_record_alg_aes256_sha256 : RecordAlgorithm :=
  { cipher := CipherId.aes256, hmac_alg := S2N_HMAC_SHA256, flags := 0,
    encryption_limit := UINT64_MAX }

def s2n_record_alg_aes256_sha256_composite : RecordAlgorithm :=
  { cipher := CipherId.aes256_sha256, hmac_alg := S2N_HMAC_NONE,
    encryption_limit := UINT64_MAX }

def s2n_record_alg_aes256_sha384 : RecordAlgorithm :=
  { cipher := CipherId.aes256, hmac_alg := S2N_HMAC_SHA384, flags := 0,
    encryption_limit := UINT64_MAX }

def s2n_record_alg_aes128_gcm : RecordAlgorithm :=
  { cipher := CipherId.aes128_gcm, hmac_alg := S2N_HMAC_NONE,
    flags := S2N_TLS12_AES_GCM_AEAD_NONCE, encryption_limit := UINT64_MAX }

def s2n_record_alg_aes256_gcm : RecordAlgorithm :=
  { cipher := CipherId.aes256_gcm, hmac_alg := S2N_HMAC_NONE,
    flags := S2N_TLS12_AES_GCM_AEAD_NONCE, encryption_limit := UINT64_MAX }

def s2n_record_alg_chacha20_poly1305 : RecordAlgorithm :=
  { cipher := CipherId.chacha20_poly1305, hmac_alg := S2N_HMAC_NONE,
    flags := S2N_TLS12_CHACHA_POLY_AEAD_NONCE, encryption_limit := UINT64_MAX }

def s2n_tls13_record_alg_aes128_gcm : RecordAlgorithm :=
  { cipher := CipherId.tls13_aes128_gcm, hmac_alg := S2N_HMAC_NONE,
    flags := S2N_TLS13_RECORD_AEAD_NONCE,
    encryption_limit := S2N_TLS13_AES_GCM_MAXIMUM_RECORD_NUMBER }

def s2n_tls13_record_alg_aes256_gcm : RecordAlgorithm :=
  { cipher := CipherId.tls13_aes256_gcm, hmac_alg := S2N_HMAC_NONE,
    flags := S2N_TLS13_RECORD_AEAD_NONCE,
    encryption_limit := S2N_TLS13_AES_GCM_MAXIMUM_RECORD_NUMBER }

def s2n_tls13_record_alg_chacha20_poly1305 : RecordAlgorithm :=
  { cipher := CipherId.chacha20_poly1305, hmac_alg := S2N_HMAC_NONE,
    flags := S2N_TLS13_RECORD_AEAD_NONCE, encryption_limit := UINT64_MAX }

/-! ### Cipher suite catalog (lines 213 to 758 of the source)

Static initial values: available = 0 and record_alg = NULL for every
negotiable suite; the null suite is marked available with the null record
algorithm and is never negotiated. -/

def s2n_null_cipher_suite : CipherSuite :=
  { available := true, name := "TLS_NULL_WITH_NULL_NULL", iana_value := (0x00, 0x00),
    key_exchange_alg := some KexAlg.rsa, auth_method := AuthMethod.rsa,
    record_alg := some s2n_record_alg_null }

def s2n_equal_preference_group_start : CipherSuite :=
  { available := false, name := "EQUAL_PREFERENCE_GROUP_START", iana_value := (0x00, 0x00),
    key_exchange_alg := some KexAlg.rsa, auth_method := AuthMethod.rsa,
    record_alg := some s2n_record_alg_null }

def s2n_equal_preference_group_end : CipherSuite :=
  { available := false, name := "EQUAL_PREFERENCE_GROUP_END", iana_value := (0x00, 0x00),
    key_exchange_alg := some KexAlg.rsa, auth_method := AuthMethod.rsa,
    record_alg := some s2n_record_alg_null }

def s2n_rsa_with_rc4_128_md5 : CipherSuite :=
  { available := false, name := "RC4-MD5", iana_value := (0x00, 0x04),
    key_exchange_alg := some KexAlg.rsa, auth_method := AuthMethod.rsa,
    record_alg := none,
    all_record_algs := [s2n_record_alg_rc4_md5],
    sslv3_record_alg := some s2n_record_alg_rc4_sslv3_md5,
    prf_alg := S2N_HMAC_SHA256, minimum_required_tls_version := S2N_SSLv3 }

def s2n_rsa_with_rc4_128_sha : CipherSuite :=
  { available := false, name := "RC4-SHA", iana_value := (0x00, 0x05),
    key_exchange_alg := some KexAlg.rsa, auth_method := AuthMethod.rsa,
    record_alg := none,
    all_record_algs := [s2n_record_alg_rc4_sha],
    sslv3_record_alg := some s2n_record_alg_rc4_sslv3_sha,
    prf_alg := S2N_HMAC_SHA256, minimum_required_tls_version := S2N_SSLv3 }

def s2n_rsa_with_3des_ede_cbc_sha : CipherSuite :=
  { available := false, name := "DES-CBC3-SHA", iana_value := (0x00, 0x0A),
    key_exchange_alg := some KexAlg.rsa, auth_method := AuthMethod.rsa,
    record_alg := none,
    all_record_algs := [s2n_record_alg_3des_sha],
    sslv3_record_alg := some s2n_record_alg_3des_sslv3_sha,
    prf_alg := S2N_HMAC_SHA256, minimum_required_tls_version := S2N_SSLv3 }

def s2n_dhe_rsa_with_3des_ede_cbc_sha : CipherSuite :=
  { available := false, name := "DHE-RSA-DES-CBC3-SHA", iana_value := (0x00, 0x16),
    key_exchange_alg := some KexAlg.dhe, auth_method := AuthMethod.rsa,
    record_alg := none,
    all_record_algs := [s2n_record_alg_3des_sha],
    sslv3_record_alg := some s2n_record_alg_3des_sslv3_sha,
    prf_alg := S2N_HMAC_SHA256, minimum_required_tls_version := S2N_SSLv3 }

def s2n_rsa_with_aes_128_cbc_sha : CipherSuite :=
  { available := false, name := "AES128-SHA", iana_value := (0x00, 0x2F),
    key_exchange_alg := some KexAlg.rsa, auth_method := AuthMethod.rsa,
    record_alg := none,
    all_record_algs := [s2n_record_alg_aes128_sha_composite, s2n_record_alg_aes128_sha],
    sslv3_record_alg := some s2n_record_alg_aes128_sslv3_sha,
    prf_alg := S2N_HMAC_SHA256, minimum_required_tls_version := S2N_SSLv3 }

def s2n_dhe_rsa_with_aes_128_cbc_sha : CipherSuite :=
  { available := false, name := "DHE-RSA-AES128-SHA", iana_value := (0x00, 0x33),
    key_exchange_alg := some KexAlg.dhe, auth_method := AuthMethod.rsa,
    record_alg := none,
    all_record_algs := [s2n_record_alg_aes128_sha_composite, s2n_record_alg_aes128_sha],
    sslv3_record_alg := some s2n_record_alg_aes128_sslv3_sha,
    prf_alg := S2N_HMAC_SHA256, minimum_required_tls_version := S2N_SSLv3 }

def s2n_rsa_with_aes_256_cbc_sha : CipherSuite :=
  { available := false, name := "AES256-SHA", iana_value := (0x00, 0x35),
    key_exchange_alg := some KexAlg.rsa, auth_method := AuthMethod.rsa,
    record_alg := none,
    all_record_algs := [s2n_record_alg_aes256_sha_composite, s2n_record_alg_aes256_sha],
    sslv3_record_alg := some s2n_record_alg_aes256_sslv3_sha,
    prf_alg := S2N_HMAC_SHA256, minimum_required_tls_version := S2N_SSLv3 }

def s2n_dhe_rsa_with_aes_256_cbc_sha : CipherSuite :=
  { available := false, name := "DHE-RSA-AES256-SHA", iana_value := (0x00, 0x39),
    key_exchange_alg := some KexAlg.dhe, auth_method := AuthMethod.rsa,
    record_alg := none,
    all_record_algs := [s2n_record_alg_aes256_sha_composite, s2n_record_alg_aes256_sha],
    sslv3_record_alg := some s2n_record_alg_aes256_sslv3_sha,
    prf_alg := S2N_HMAC_SHA256, minimum_required_tls_version := S2N_SSLv3 }

def s2n_rsa_with_aes_128_cbc_sha256 : CipherSuite :=
  { available := false, name := "AES128-SHA256", iana_value := (0x00, 0x3C),
    key_exchange_alg := some KexAlg.rsa, auth_method := AuthMethod.rsa,
    record_alg := none,
    all_record_algs := [s2n_record_alg_aes128_sha256_composite, s2n_record_alg_aes128_sha256],
    sslv3_record_alg := none,
    prf_alg := S2N_HMAC_SHA256, minimum_required_tls_version := S2N_TLS12 }

def s2n_rsa_with_aes_256_cbc_sha256 : CipherSuite :=
  { available := false, name := "AES256-SHA256", iana_value := (0x00, 0x3D),
    key_exchange_alg := some KexAlg.rsa, auth_method := AuthMethod.rsa,
    record_alg := none,
    all_record_algs := [s2n_record_alg_aes256_sha256_composite, s2n_record_alg_aes256_sha256],
    sslv3_record_alg := none,
    prf_alg := S2N_HMAC_SHA256, minimum_required_tls_version := S2N_TLS12 }

def s2n_dhe_rsa_with_aes_128_cbc_sha256 : CipherSuite :=
  { available := false, name := "DHE-RSA-AES128-SHA256", iana_value := (0x00, 0x67),
    key_exchange_alg := some KexAlg.dhe, auth_method := AuthMethod.rsa,
    record_alg := none,
    all_record_algs := [s2n_record_alg_aes128_sha256_composite, s2n_record_alg_aes128_sha256],
    sslv3_record_alg := none,
    prf_alg := S2N_HMAC_SHA256, minimum_required_tls_version := S2N_TLS12 }

def s2n_dhe_rsa_with_aes_256_cbc_sha256 : CipherSuite :=
  { available := false, name := "DHE-RSA-AES256-SHA256", iana_value := (0x00, 0x6B),
    key_exchange_alg := some KexAlg.dhe, auth_method := AuthMethod.rsa,
    record_alg := none,
    all_record_algs := [s2n_record_alg_aes256_sha256_composite, s2n_record_alg_aes256_sha256],
    sslv3_record_alg := none,
    prf_alg := S2N_HMAC_SHA256, minimum_required_tls_version := S2N_TLS12 }

def s2n_rsa_with_aes_128_gcm_sha256 : CipherSuite :=
  { available := false, name := "AES128-GCM-SHA256", iana_value := (0x00, 0x9C),
    key_exchange_alg := some KexAlg.rsa, auth_method := AuthMethod.rsa,
    record_alg := none,
    all_record_algs := [s2n_record_alg_aes128_gcm],
    sslv3_record_alg := none,
    prf_alg := S2N_HMAC_SHA256, minimum_required_tls_version := S2N_TLS12 }

def s2n_rsa_with_aes_256_gcm_sha384 : CipherSuite :=
  { available := false, name := "AES256-GCM-SHA384", iana_value := (0x00, 0x9D),
    key_exchange_alg := some KexAlg.rsa, auth_method := AuthMethod.rsa,
    record_alg := none,
    all_record_algs := [s2n_record_alg_aes256_gcm],
    sslv3_record_alg := none,
    prf_alg := S2N_HMAC_SHA384, minimum_required_tls_version := S2N_TLS12 }

def s2n_dhe_rsa_with_aes_128_gcm_sha256 : CipherSuite :=
  { available := false, name := "DHE-RSA-AES128-GCM-SHA256", iana_value := (0x00, 0x9E),
    key_exchange_alg := some KexAlg.dhe, auth_method := AuthMethod.rsa,
    record_alg := none,
    all_record_algs := [s2n_record_alg_aes128_gcm],
    sslv3_record_alg := none,
    prf_alg := S2N_HMAC_SHA256, minimum_required_tls_version := S2N_TLS12 }

def s2n_dhe_rsa_with_aes_256_gcm_sha384 : CipherSuite :=
  { available := false, name := "DHE-RSA-AES256-GCM-SHA384", iana_value := (0x00, 0x9F),
    key_exchange_alg := some KexAlg.dhe, auth_method := AuthMethod.rsa,
    record_alg := none,
    all_record_algs := [s2n_record_alg_aes256_gcm],
    sslv3_record_alg := none,
    prf_alg := S2N_HMAC_SHA384, minimum_required_tls_version := S2N_TLS12 }

def s2n_ecdhe_ecdsa_with_aes_128_cbc_sha : CipherSuite :=
  { available := false, name := "ECDHE-ECDSA-AES128-SHA", iana_value := (0xC0, 0x09),
    key_exchange_alg := some KexAlg.ecdhe, auth_method := AuthMethod.ecdsa,
    record_alg := none,
    all_record_algs := [s2n_record_alg_aes128_sha_composite, s2n_record_alg_aes128_sha],
    sslv3_record_alg := some s2n_record_alg_aes128_sslv3_sha,
    prf_alg := S2N_HMAC_SHA256, minimum_required_tls_version := S2N_SSLv3 }

def s2n_ecdhe_ecdsa_with_aes_256_cbc_sha : CipherSuite :=
  { available := false, name := "ECDHE-ECDSA-AES256-SHA", iana_value := (0xC0, 0x0A),
    key_exchange_alg := some KexAlg.ecdhe, auth_method := AuthMethod.ecdsa,
    record_alg := none,
    all_record_algs := [s2n_record_alg_aes256_sha_composite, s2n_record_alg_aes256_sha],
    sslv3_record_alg := some s2n_record_alg_aes256_sslv3_sha,
    prf_alg := S2N_HMAC_SHA256, minimum_required_tls_version := S2N_SSLv3 }

def s2n_ecdhe_rsa_with_rc4_128_sha : CipherSuite :=
  { available := false, name := "ECDHE-RSA-RC4-SHA", iana_value := (0xC0, 0x11),
    key_exchange_alg := some KexAlg.ecdhe, auth_method := AuthMethod.rsa,
    record_alg := none,
    all_record_algs := [s2n_record_alg_rc4_sha],
    sslv3_record_alg := some s2n_record_alg_rc4_sslv3_sha,
    prf_alg := S2N_HMAC_SHA256, minimum_required_tls_version := S2N_SSLv3 }

def s2n_ecdhe_rsa_with_3des_ede_cbc_sha : CipherSuite :=
  { available := false, name := "ECDHE-RSA-DES-CBC3-SHA", iana_value := (0xC0, 0x12),
    key_exchange_alg := some KexAlg.ecdhe, auth_method := AuthMethod.rsa,
    record_alg := none,
    all_record_algs := [s2n_record_alg_3des_sha],
    sslv3_record_alg := some s2n_record_alg_3des_sslv3_sha,
    prf_alg := S2N_HMAC_SHA256, minimum_required_tls_version := S2N_SSLv3 }

def s2n_ecdhe_rsa_with_aes_128_cbc_sha : CipherSuite :=
  { available := false, name := "ECDHE-RSA-AES128-SHA", iana_value := (0xC0, 0x13),
    key_exchange_alg := some KexAlg.ecdhe, auth_method := AuthMethod.rsa,
    record_alg := none,
    all_record_algs := [s2n_record_alg_aes128_sha_composite, s2n_record_alg_aes128_sha],
    sslv3_record_alg := some s2n_record_alg_aes128_sslv3_sha,
    prf_alg := S2N_HMAC_SHA256, minimum_required_tls_version := S2N_SSLv3 }

def s2n_ecdhe_rsa_with_aes_256_cbc_sha : CipherSuite :=
  { available := false, name := "ECDHE-RSA-AES256-SHA", iana_value := (0xC0, 0x14),
    key_exchange_alg := some KexAlg.ecdhe, auth_method := AuthMethod.rsa,
    record_alg := none,
    all_record_algs := [s2n_record_alg_aes256_sha_composite, s2n_record_alg_aes256_sha],
    sslv3_record_alg := some s2n_record_alg_aes256_sslv3_sha,
    prf_alg := S2N_HMAC_SHA256, minimum_required_tls_version := S2N_SSLv3 }

def s2n_ecdhe_ecdsa_with_aes_128_cbc_sha256 : CipherSuite :=
  { available := false, name := "ECDHE-ECDSA-AES128-SHA256", iana_value := (0xC0, 0x23),
    key_exchange_alg := some KexAlg.ecdhe, auth_method := AuthMethod.ecdsa,
    record_alg := none,
    all_record_algs := [s2n_record_alg_aes128_sha256_composite, s2n_record_alg_aes128_sha256],
    sslv3_record_alg := none,
    prf_alg := S2N_HMAC_SHA256, minimum_required_tls_version := S2N_TLS12 }

def s2n_ecdhe_ecdsa_with_aes_256_cbc_sha384 : CipherSuite :=
  { available := false, name := "ECDHE-ECDSA-AES256-SHA384", iana_value := (0xC0, 0x24),
    key_exchange_alg := some KexAlg.ecdhe, auth_method := AuthMethod.ecdsa,
    record_alg := none,
    all_record_algs := [s2n_record_alg_aes256_sha384],
    sslv3_record_alg := none,
    prf_alg := S2N_HMAC_SHA384, minimum_required_tls_version := S2N_TLS12 }

def s2n_ecdhe_rsa_with_aes_128_cbc_sha256 : CipherSuite :=
  { available := false, name := "ECDHE-RSA-AES128-SHA256", iana_value := (0xC0, 0x27),
    key_exchange_alg := some KexAlg.ecdhe, auth_method := AuthMethod.rsa,
    record_alg := none,
    all_record_algs := [s2n_record_alg_aes128_sha256_composite, s2n_record_alg_aes128_sha256],
    sslv3_record_alg := none,
    prf_alg := S2N_HMAC_SHA256, minimum_required_tls_version := S2N_TLS12 }

def s2n_ecdhe_rsa_with_aes_256_cbc_sha384 : CipherSuite :=
  { available := false, name := "ECDHE-RSA-AES256-SHA384", iana_value := (0xC0, 0x28),
    key_exchange_alg := some KexAlg.ecdhe, auth_method := AuthMethod.rsa,
    record_alg := none,
    all_record_algs := [s2n_record_alg_aes256_sha384],
    sslv3_record_alg := none,
    prf_alg := S2N_HMAC_SHA384, minimum_required_tls_version := S2N_TLS12 }

def s2n_ecdhe_ecdsa_with_aes_128_gcm_sha256 : CipherSuite :=
  { available := false, name := "ECDHE-ECDSA-AES128-GCM-SHA256", iana_value := (0xC0, 0x2B),
    key_exchange_alg := some KexAlg.ecdhe, auth_method := AuthMethod.ecdsa,
    record_alg := none,
    all_record_algs := [s2n_record_alg_aes128_gcm],
    sslv3_record_alg := none,
    prf_alg := S2N_HMAC_SHA256, minimum_required_tls_version := S2N_TLS12 }

def s2n_ecdhe_ecdsa_with_aes_256_gcm_sha384 : CipherSuite :=
  { available := false, name := "ECDHE-ECDSA-AES256-GCM-SHA384", iana_value := (0xC0, 0x2C),
    key_exchange_alg := some KexAlg.ecdhe, auth_method := AuthMethod.ecdsa,
    record_alg := none,
    all_record_algs := [s2n_record_alg_aes256_gcm],
    sslv3_record_alg := none,
    prf_alg := S2N_HMAC_SHA384, minimum_required_tls_version := S2N_TLS12 }

def s2n_ecdhe_rsa_with_aes_128_gcm_sha256 : CipherSuite :=
  { available := false, name := "ECDHE-RSA-AES128-GCM-SHA256", iana_value := (0xC0, 0x2F),
    key_exchange_alg := some KexAlg.ecdhe, auth_method := AuthMethod.rsa,
    record_alg := none,
    all_record_algs := [s2n_record_alg_aes128_gcm],
    sslv3_record_alg := none,
    prf_alg := S2N_HMAC_SHA256, minimum_required_tls_version := S2N_TLS12 }

def s2n_ecdhe_rsa_with_aes_256_gcm_sha384 : CipherSuite :=
  { available := false, name := "ECDHE-RSA-AES256-GCM-SHA384", iana_value := (0xC0, 0x30),
    key_exchange_alg := some KexAlg.ecdhe, auth_method := AuthMethod.rsa,
    record_alg := none,
    all_record_algs := [s2n_record_alg_aes256_gcm],
    sslv3_record_alg := none,
    prf_alg := S2N_HMAC_SHA384, minimum_required_tls_version := S2N_TLS12 }

def s2n_ecdhe_rsa_with_chacha20_poly1305_sha256 : CipherSuite :=
  { available := false, name := "ECDHE-RSA-CHACHA20-POLY1305", iana_value := (0xCC, 0xA8),
    key_exchange_alg := some KexAlg.ecdhe, auth_method := AuthMethod.rsa,
    record_alg := none,
    all_record_algs := [s2n_record_alg_chacha20_poly1305],
    sslv3_record_alg := none,
    prf_alg := S2N_HMAC_SHA256, minimum_required_tls_version := S2N_TLS12 }

def s2n_ecdhe_ecdsa_with_chacha20_poly1305_sha256 : CipherSuite :=
  { available := false, name := "ECDHE-ECDSA-CHACHA20-POLY1305", iana_value := (0xCC, 0xA9),
    key_exchange_alg := some KexAlg.ecdhe, auth_method := AuthMethod.ecdsa,
    record_alg := none,
    all_record_algs := [s2n_record_alg_chacha20_poly1305],
    sslv3_record_alg := none,
    prf_alg := S2N_HMAC_SHA256, minimum_required_tls_version := S2N_TLS12 }

def s2n_dhe_rsa_with_chacha20_poly1305_sha256 : CipherSuite :=
  { available := false, name := "DHE-RSA-CHACHA20-POLY1305", iana_value := (0xCC, 0xAA),
    key_exchange_alg := some KexAlg.dhe, auth_method := AuthMethod.rsa,
    record_alg := none,
    all_record_algs := [s2n_record_alg_chacha20_poly1305],
    sslv3_record_alg := none,
    prf_alg := S2N_HMAC_SHA256, minimum_required_tls_version := S2N_TLS12 }

def s2n_ecdhe_kyber_rsa_with_aes_256_gcm_sha384 : CipherSuite :=
  { available := false, name := "ECDHE-KYBER-RSA-AES256-GCM-SHA384", iana_value := (0xFF, 0x0C),
    key_exchange_alg := some KexAlg.hybrid_ecdhe_kem, auth_method := AuthMethod.rsa,
    record_alg := none,
    all_record_algs := [s2n_record_alg_aes256_gcm],
    sslv3_record_alg := none,
    prf_alg := S2N_HMAC_SHA384, minimum_required_tls_version := S2N_TLS12 }

def s2n_tls13_aes_128_gcm_sha256 : CipherSuite :=
  { available := false, name := "TLS_AES_128_GCM_SHA256", iana_value := (0x13, 0x01),
    key_exchange_alg := none, auth_method := AuthMethod.tls13,
    record_alg := none,
    all_record_algs := [s2n_tls13_record_alg_aes128_gcm],
    sslv3_record_alg := none,
    prf_alg := S2N_HMAC_SHA256, minimum_required_tls_version := S2N_TLS13 }

def s2n_tls13_aes_256_gcm_sha384 : CipherSuite :=
  { available := false, name := "TLS_AES_256_GCM_SHA384", iana_value := (0x13, 0x02),
    key_exchange_alg := none, auth_method := AuthMethod.tls13,
    record_alg := none,
    all_record_algs := [s2n_tls13_record_alg_aes256_gcm],
    sslv3_record_alg := none,
    prf_alg := S2N_HMAC_SHA384, minimum_required_tls_version := S2N_TLS13 }

def s2n_tls13_chacha20_poly1305_sha256 : CipherSuite :=
  { available := false, name := "TLS_CHACHA20_POLY1305_SHA256", iana_value := (0x13, 0x03),
    key_exchange_alg := none, auth_method := AuthMethod.tls13,
    record_alg := none,
    all_record_algs := [s2n_tls13_record_alg_chacha20_poly1305],
    sslv3_record_alg := none,
    prf_alg := S2N_HMAC_SHA256, minimum_required_tls_version := S2N_TLS13 }

/-- All of the cipher suites that s2n negotiates in order of IANA value
(lines 764 to 804 of the source). -/
def s2n_all_cipher_suites : List CipherSuite := [
  s2n_rsa_with_rc4_128_md5,                      -- 0x00,0x04
  s2n_rsa_with_rc4_128_sha,                      -- 0x00,0x05
  s2n_rsa_with_3des_ede_cbc_sha,                 -- 0x00,0x0A
  s2n_dhe_rsa_with_3des_ede_cbc_sha,             -- 0x00,0x16
  s2n_rsa_with_aes_128_cbc_sha,                  -- 0x00,0x2F
  s2n_dhe_rsa_with_aes_128_cbc_sha,              -- 0x00,0x33
  s2n_rsa_with_aes_256_cbc_sha,                  -- 0x00,0x35
  s2n_dhe_rsa_with_aes_256_cbc_sha,              -- 0x00,0x39
  s2n_rsa_with_aes_128_cbc_sha256,               -- 0x00,0x3C
  s2n_rsa_with_aes_256_cbc_sha256,               -- 0x00,0x3D
  s2n_dhe_rsa_with_aes_128_cbc_sha256,           -- 0x00,0x67
  s2n_dhe_rsa_with_aes_256_cbc_sha256,           -- 0x00,0x6B
  s2n_rsa_with_aes_128_gcm_sha256,               -- 0x00,0x9C
  s2n_rsa_with_aes_256_gcm_sha384,               -- 0x00,0x9D
  s2n_dhe_rsa_with_aes_128_gcm_sha256,           -- 0x00,0x9E
  s2n_dhe_rsa_with_aes_256_gcm_sha384,           -- 0x00,0x9F
  s2n_tls13_aes_128_gcm_sha256,                  -- 0x13,0x01
  s2n_tls13_aes_256_gcm_sha384,                  -- 0x13,0x02
  s2n_tls13_chacha20_poly1305_sha256,            -- 0x13,0x03
  s2n_ecdhe_ecdsa_with_aes_128_cbc_sha,          -- 0xC0,0x09
  s2n_ecdhe_ecdsa_with_aes_256_cbc_sha,          -- 0xC0,0x0A
  s2n_ecdhe_rsa_with_rc4_128_sha,                -- 0xC0,0x11
  s2n_ecdhe_rsa_with_3des_ede_cbc_sha,           -- 0xC0,0x12
  s2n_ecdhe_rsa_with_aes_128_cbc_sha,            -- 0xC0,0x13
  s2n_ecdhe_rsa_with_aes_256_cbc_sha,            -- 0xC0,0x14
  s2n_ecdhe_ecdsa_with_aes_128_cbc_sha256,       -- 0xC0,0x23
  s2n_ecdhe_ecdsa_with_aes_256_cbc_sha384,       -- 0xC0,0x24
  s2n_ecdhe_rsa_with_aes_128_cbc_sha256,         -- 0xC0,0x27
  s2n_ecdhe_rsa_with_aes_256_cbc_sha384,         -- 0xC0,0x28
  s2n_ecdhe_ecdsa_with_aes_128_gcm_sha256,       -- 0xC0,0x2B
  s2n_ecdhe_ecdsa_with_aes_256_gcm_sha384,       -- 0xC0,0x2C
  s2n_ecdhe_rsa_with_aes_128_gcm_sha256,         -- 0xC0,0x2F
  s2n_ecdhe_rsa_with_aes_256_gcm_sha384,         -- 0xC0,0x30
  s2n_ecdhe_rsa_with_chacha20_poly1305_sha256,   -- 0xCC,0xA8
  s2n_ecdhe_ecdsa_with_chacha20_poly1305_sha256, -- 0xCC,0xA9
  s2n_dhe_rsa_with_chacha20_poly1305_sha256,     -- 0xCC,0xAA
  s2n_ecdhe_kyber_rsa_with_aes_256_gcm_sha384    -- 0xFF,0x0C
]

/-! ### Capability initializer (s2n_cipher_suites_init, lines 1022 to 1076)

The loop body of s2n_cipher_suites_init, per catalog entry. The runtime
probe cipher->is_available() lives outside this source file and is passed
in as the parameter avail; the collaborator s2n_pq_is_enabled() is passed
in as pq_enabled. -/

def s2n_cipher_suites_init_suite (avail : CipherId → Bool) (pq_enabled : Bool)
    (cur_suite : CipherSuite) : CipherSuite :=
  let s1 : CipherSuite := { cur_suite with available := false, record_alg := none }
  let s2 : CipherSuite :=
    match cur_suite.all_record_algs.find? (fun r => avail r.cipher) with
    | some r => { s1 with available := true, record_alg := some r }
    | none => s1
  if s2n_kex_includes_kem cur_suite.key_exchange_alg && !pq_enabled then
    { s2 with available := false, record_alg := none }
  else
    s2

/-- The cipher suite that the entry's sslv3_cipher_suite pointer refers to
after s2n_cipher_suites_init: a duplicate with the SSLv3 record algorithm
when one exists and its cipher is available, and the entry itself
otherwise (lines 1049 to 1061 of the source). -/
def s2n_sslv3_cipher_suite_of (avail : CipherId → Bool) (pq_enabled : Bool)
    (cur_suite : CipherSuite) : CipherSuite :=
  let done := s2n_cipher_suites_init_suite avail pq_enabled cur_suite
  match cur_suite.sslv3_record_alg with
  | some r =>
      if avail r.cipher then { done with available := true, record_alg := some r }
      else done
  | none => done

/-- The full catalog after s2n_cipher_suites_init has run. -/
def s2n_cipher_suites_init (avail : CipherId → Bool) (pq_enabled : Bool) :
    List CipherSuite :=
  s2n_all_cipher_suites.map (s2n_cipher_suites_init_suite avail pq_enabled)

/-! ### Preference lists

A server preference list is a sequence of pointers to cipher suites, some
of which may be the two distinguished sentinel pseudo-suites. The C code
distinguishes a sentinel by pointer identity with
s2n_equal_preference_group_start and s2n_equal_preference_group_end; that
object identity is modelled by the constructors of Entry. -/

inductive Entry where
  | group_start
  | group_end
  | suite (s : CipherSuite)
  deriving DecidableEq, Repr

/-- The cipher-suite struct an entry points at. The sentinels are
themselves s2n_cipher_suite structs in the C code. -/
def Entry.toSuite : Entry → CipherSuite
  | Entry.group_start => s2n_equal_preference_group_start
  | Entry.group_end => s2n_equal_preference_group_end
  | Entry.suite s => s

/-! ### Connections

Only the connection fields that this source file reads or writes are
modelled. The three collaborator calls made during candidate validation
(s2n_is_cipher_suite_valid_for_auth, s2n_kex_supported, s2n_configure_kex,
all defined outside this source file) are modelled as boolean-valued
fields of the connection. -/

structure Connection where
  actual_protocol_version : Nat
  client_protocol_version : Nat := 0
  server_protocol_version : Nat := 0
  closed : Bool := false
  secure_renegotiation : Bool := false
  secure_cipher_suite : Option CipherSuite := some s2n_null_cipher_suite
  chosen_psk_hmac : Option Nat := none
  hello_retry_handshake : Bool := false
  hello_retry_message : Bool := false
  valid_for_auth : CipherSuite → Bool := fun _ => true
  kex_supported : CipherSuite → Bool := fun _ => true
  configure_kex_ok : CipherSuite → Bool := fun _ => true
  cipher_preferences : List Entry := []

/-! ### SCSV codes (big-endian byte pairs) -/

def TLS_FALLBACK_SCSV : Nat × Nat := (0x56, 0x00)
def TLS_EMPTY_RENEGOTIATION_INFO_SCSV : Nat × Nat := (0x00, 0xFF)

/-! ### Wire scanning (lines 1206 to 1217 and 1283 to 1294)

The client wire list is a flat byte list; entry i occupies bytes
i * cipher_suite_len to (i+1) * cipher_suite_len - 1 and only its trailing
two bytes are compared, exactly as in the C pointer arithmetic. Reads are
modelled with getD; callers pass wires of length count * cipher_suite_len. -/

def s2n_wire_ciphers_contain (mtch : Nat × Nat) (wire : List Nat)
    (count cipher_suite_len : Nat) : Bool :=
  (List.range count).any fun i =>
    wire.getD (i * cipher_suite_len + (cipher_suite_len - 2)) 0 == mtch.1 &&
    wire.getD (i * cipher_suite_len + (cipher_suite_len - 1)) 0 == mtch.2

/-- Same scan, returning the first matching index; none models the C
return value -1. -/
def s2n_wire_ciphers_has_server_cipher_at (mtch : Nat × Nat) (wire : List Nat)
    (count cipher_suite_len : Nat) : Option Nat :=
  (List.range count).find? fun i =>
    wire.getD (i * cipher_suite_len + (cipher_suite_len - 2)) 0 == mtch.1 &&
    wire.getD (i * cipher_suite_len + (cipher_suite_len - 1)) 0 == mtch.2

/-! ### Candidate validation (s2n_cipher_suite_match_is_valid, lines 1229 to 1272) -/

def s2n_cipher_suite_match_is_valid (conn : Connection)
    (potential_match : CipherSuite) : Bool :=
  if (decide (S2N_TLS13 ≤ conn.actual_protocol_version)) !=
     (decide (S2N_TLS13 ≤ potential_match.minimum_required_tls_version)) then
    false
  else if !potential_match.available then
    false
  else if !(conn.valid_for_auth potential_match) then
    false
  else if potential_match.minimum_required_tls_version < S2N_TLS13 &&
          !(conn.kex_supported potential_match) then
    false
  else if potential_match.minimum_required_tls_version < S2N_TLS13 &&
          !(conn.configure_kex_ok potential_match) then
    false
  else
    match conn.chosen_psk_hmac with
    | some h => potential_match.prf_alg == h
    | none => true

/-! ### Server-side selection (s2n_get_negotiated_server_index, lines 1308 to 1380)

The C for-loop over the preference list, carrying the loop state
(in_group, negotiated_client_index, negotiated_server_index,
negotiated_server_highest_vers_match_index) explicitly. The list is
pre-paired with its indices; -1 sentinels for the two index variables are
kept as Int, exactly as in the C. The nil case performs the post-loop
fallback selection of lines 1374 to 1379. -/

def s2n_negotiate_loop (conn : Connection) (wire : List Nat)
    (count cipher_suite_len : Nat) :
    List (Nat × Entry) → Bool → Nat → Int → Int → Int
  | [], _, _, negotiated_server_index, higher_vers_index =>
      if negotiated_server_index == -1 && higher_vers_index != -1 then
        higher_vers_index
      else
        negotiated_server_index
  | (_, Entry.group_start) :: rest, _, bc, bs, hv =>
      s2n_negotiate_loop conn wire count cipher_suite_len rest true bc bs hv
  | (_, Entry.group_end) :: rest, _, bc, bs, hv =>
      if bs != -1 then bs
      else s2n_negotiate_loop conn wire count cipher_suite_len rest false bc bs hv
  | (i, Entry.suite ours) :: rest, in_group, bc, bs, hv =>
      match s2n_wire_ciphers_has_server_cipher_at ours.iana_value wire count cipher_suite_len with
      | none => s2n_negotiate_loop conn wire count cipher_suite_len rest in_group bc bs hv
      | some client_index =>
        if !(s2n_cipher_suite_match_is_valid conn ours) then
          s2n_negotiate_loop conn wire count cipher_suite_len rest in_group bc bs hv
        else if conn.actual_protocol_version < ours.minimum_required_tls_version then
          s2n_negotiate_loop conn wire count cipher_suite_len rest in_group bc bs
            (if hv == -1 then (i : Int) else hv)
        else if in_group then
          if client_index < bc then
            s2n_negotiate_loop conn wire count cipher_suite_len rest in_group
              client_index (i : Int) hv
          else
            s2n_negotiate_loop conn wire count cipher_suite_len rest in_group bc bs hv
        else
          (i : Int)

def s2n_get_negotiated_server_index (conn : Connection) (wire : List Nat)
    (count cipher_suite_len : Nat) : Int :=
  s2n_negotiate_loop conn wire count cipher_suite_len
    conn.cipher_preferences.enum false count (-1) (-1)

/-! ### Server-side commit (s2n_set_cipher_as_server, lines 1382 to 1419)

Returns the mutated connection together with an optional error, mirroring
a C function that mutates through the connection pointer and returns an
error code. Note that the commit stores the selected suite directly; no
SSLv3 substitution is performed on this path. -/

def s2n_set_cipher_as_server (conn : Connection) (wire : List Nat)
    (count cipher_suite_len : Nat) : Connection × Option S2NError :=
  if conn.client_protocol_version < conn.server_protocol_version &&
     s2n_wire_ciphers_contain TLS_FALLBACK_SCSV wire count cipher_suite_len then
    ({ conn with closed := true }, some S2NError.fallback_detected)
  else
    let conn1 : Connection :=
      if s2n_wire_ciphers_contain TLS_EMPTY_RENEGOTIATION_INFO_SCSV wire count cipher_suite_len
      then { conn with secure_renegotiation := true }
      else conn
    let negotiated_index := s2n_get_negotiated_server_index conn1 wire count cipher_suite_len
    if negotiated_index < 0 then
      (conn1, some S2NError.cipher_not_supported)
    else
      match conn1.cipher_preferences.get? negotiated_index.toNat with
      | none => (conn1, some S2NError.null_ref)
      | some e => ({ conn1 with secure_cipher_suite := some e.toSuite }, none)

def s2n_set_cipher_as_sslv2_server (conn : Connection) (wire : List Nat)
    (count : Nat) : Connection × Option S2NError :=
  s2n_set_cipher_as_server conn wire count 3

def s2n_set_cipher_as_tls_server (conn : Connection) (wire : List Nat)
    (count : Nat) : Connection × Option S2NError :=
  s2n_set_cipher_as_server conn wire count 2

/-! ### Client-side confirmation (s2n_set_cipher_as_client, lines 1134 to 1204)

The sslv3_of parameter stands for the sslv3_cipher_suite pointer field
written by the initializer (s2n_sslv3_cipher_suite_of applied to the
catalog); none models a NULL pointer. The HRR comparison at line 1191
compares the iana_value members of the pinned and the freshly located
suite; in this embedding, where a suite is identified with its descriptor
and catalog IANA codes are unique, that object identity is modelled as
equality of the IANA byte pairs. -/

def s2n_set_cipher_as_client (conn : Connection)
    (sslv3_of : CipherSuite → Option CipherSuite) (wire : Nat × Nat) :
    Connection × Option S2NError :=
  match conn.secure_cipher_suite with
  | none => (conn, some S2NError.null_ref)
  | some pinned =>
    match conn.cipher_preferences.find? (fun e => e.toSuite.iana_value == wire) with
    | none => (conn, some S2NError.cipher_not_supported)
    | some e =>
      let cipher_suite := e.toSuite
      if !cipher_suite.available then
        (conn, some S2NError.cipher_not_supported)
      else if (match conn.chosen_psk_hmac with
               | some h => cipher_suite.prf_alg != h
               | none => false) then
        (conn, some S2NError.cipher_not_supported)
      else if conn.hello_retry_handshake && !conn.hello_retry_message then
        if pinned.iana_value == cipher_suite.iana_value then (conn, none)
        else (conn, some S2NError.cipher_not_supported)
      else
        if conn.actual_protocol_version == S2N_SSLv3 then
          match sslv3_of cipher_suite with
          | some shadow => ({ conn with secure_cipher_suite := some shadow }, none)
          | none => ({ conn with secure_cipher_suite := none }, some S2NError.null_ref)
        else
          ({ conn with secure_cipher_suite := some cipher_suite }, none)

/-! ### Public extension predicates (lines 1431 to 1459)

The cipher argument is a possibly-NULL pointer, modelled as an Option. -/

def s2n_cipher_suite_requires_ecc_extension : Option CipherSuite → Bool
  | none => false
  | some cipher =>
      if S2N_TLS13 ≤ cipher.minimum_required_tls_version then true
      else if s2n_kex_includes_ecdhe cipher.key_exchange_alg then true
      else false

def s2n_cipher_suite_requires_pq_extension : Option CipherSuite → Bool
  | none => false
  | some cipher =>
      if s2n_kex_includes_kem cipher.key_exchange_alg then true
      else false

/-! ### Catalog lookup (s2n_cipher_suite_from_iana, lines 1107 to 1132)

A textbook binary search over the static catalog. The 2-byte memcmp of
the C code is the lexicographic comparison of the byte pairs. The C while
loop is modelled with a fuel parameter; the interval shrinks at every
iteration, so a fuel of the catalog length is more than sufficient and
the fuel-exhausted branch is unreachable from the entry point. -/

def memcmp2 (a b : Nat × Nat) : Ordering :=
  if a.1 < b.1 then Ordering.lt
  else if b.1 < a.1 then Ordering.gt
  else if a.2 < b.2 then Ordering.lt
  else if b.2 < a.2 then Ordering.gt
  else Ordering.eq

def s2n_cipher_suite_from_iana_loop (iana : Nat × Nat) :
    Nat → Int → Int → Except S2NError CipherSuite
  | 0, _, _ => Except.error S2NError.cipher_not_supported
  | fuel + 1, low, top =>
    if low ≤ top then
      match s2n_all_cipher_suites.get? (low + (top - low) / 2).toNat with
      | none => Except.error S2NError.cipher_not_supported
      | some s =>
        match memcmp2 s.iana_value iana with
        | Ordering.eq => Except.ok s
        | Ordering.gt =>
            s2n_cipher_suite_from_iana_loop iana fuel low (low + (top - low) / 2 - 1)
        | Ordering.lt =>
            s2n_cipher_suite_from_iana_loop iana fuel (low + (top - low) / 2 + 1) top
    else
      Except.error S2NError.cipher_not_supported

def s2n_cipher_suite_from_iana (iana : Nat × Nat) : Except S2NError CipherSuite :=
  s2n_cipher_suite_from_iana_loop iana s2n_all_cipher_suites.length
    0 ((s2n_all_cipher_suites.length : Int) - 1)

/-! ### Declarative selection specification

A second description of server-side selection, written from the words of
the specification rather than from the loop: parse the well-formed
preference list into blocks (a lone suite outside any group, or an
equal-preference group), then pick the first block containing a legal
suite; within a group the winner is the legal member whose client-list
index is minimal (the earliest such member on ties). Legality of a suite
for the connection means: it occurs on the client wire, it passes
candidate validation, and the connection version reaches its minimum
version. The equivalence with s2n_get_negotiated_server_index is claim C1. -/

def s2n_cipher_suite_is_legal (conn : Connection) (wire : List Nat)
    (count cipher_suite_len : Nat) (s : CipherSuite) : Bool :=
  (s2n_wire_ciphers_has_server_cipher_at s.iana_value wire count cipher_suite_len).isSome &&
  s2n_cipher_suite_match_is_valid conn s &&
  decide (s.minimum_required_tls_version ≤ conn.actual_protocol_version)

inductive Block where
  | single (i : Nat) (s : CipherSuite)
  | group (members : List (Nat × CipherSuite))
  deriving DecidableEq, Repr

/-- Parse an index-paired preference list into blocks. The second argument
holds the members of the currently open group, or none outside a group.
Parsing fails on unbalanced or nested sentinels, so success is exactly
well-formedness except that empty groups are tolerated (an empty group
selects nothing, so the equivalence holds for it as well). -/
def toBlocksAux : List (Nat × Entry) → Option (List (Nat × CipherSuite)) →
    Option (List Block)
  | [], none => some []
  | [], some _ => none
  | (i, Entry.suite s) :: rest, none =>
      (toBlocksAux rest none).map (fun bs => Block.single i s :: bs)
  | (i, Entry.suite s) :: rest, some g =>
      toBlocksAux rest (some (g ++ [(i, s)]))
  | (_, Entry.group_start) :: rest, none => toBlocksAux rest (some [])
  | (_, Entry.group_start) :: _, some _ => none
  | (_, Entry.group_end) :: rest, some g =>
      (toBlocksAux rest none).map (fun bs => Block.group g :: bs)
  | (_, Entry.group_end) :: _, none => none

def toBlocks (l : List (Nat × Entry)) : Option (List Block) :=
  toBlocksAux l none

/-- The winner of an equal-preference group: among the legal members, the
first one achieving the minimal client-list index; none when no member is
legal. -/
def groupWinner (conn : Connection) (wire : List Nat)
    (count cipher_suite_len : Nat) (members : List (Nat × CipherSuite)) :
    Option Nat :=
  let legal := members.filter fun p =>
    s2n_cipher_suite_is_legal conn wire count cipher_suite_len p.2
  let best := legal.foldl
    (fun acc p =>
      match s2n_wire_ciphers_has_server_cipher_at p.2.iana_value wire count cipher_suite_len with
      | none => acc
      | some j =>
        match acc with
        | none => some (p.1, j)
        | some (bi, bj) => if j < bj then some (p.1, j) else some (bi, bj))
    none
  best.map Prod.fst

def specSelect (conn : Connection) (wire : List Nat)
    (count cipher_suite_len : Nat) : List Block → Option Nat
  | [] => none
  | Block.single i s :: rest =>
      if s2n_cipher_suite_is_legal conn wire count cipher_suite_len s then some i
      else specSelect conn wire count cipher_suite_len rest
  | Block.group g :: rest =>
      match groupWinner conn wire count cipher_suite_len g with
      | some i => some i
      | none => specSelect conn wire count cipher_suite_len rest

/-- A preference-list entry that triggers the higher-version fallback of
the selection walk: a non-sentinel suite that the client offers and that
validates, but whose minimum version exceeds the connection version. -/
def s2n_higher_vers_match (conn : Connection) (wire : List Nat)
    (count cipher_suite_len : Nat) (s : CipherSuite) : Bool :=
  (s2n_wire_ciphers_has_server_cipher_at s.iana_value wire count cipher_suite_len).isSome &&
  s2n_cipher_suite_match_is_valid conn s &&
  decide (conn.actual_protocol_version < s.minimum_required_tls_version)

/-- The earliest higher-version fallback index of the preference list. -/
def firstHigherVersIndex (conn : Connection) (wire : List Nat)
    (count cipher_suite_len : Nat) : List (Nat × Entry) → Option Nat
  | [] => none
  | p :: rest =>
    match p.2 with
    | Entry.suite s =>
        if s2n_higher_vers_match conn wire count cipher_suite_len s then some p.1
        else firstHigherVersIndex conn wire count cipher_suite_len rest
    | _ => firstHigherVersIndex conn wire count cipher_suite_len rest

/-- Legality of a preference-list entry: sentinels are never legal. -/
def entryIsLegal (conn : Connection) (wire : List Nat)
    (count cipher_suite_len : Nat) : Entry → Bool
  | Entry.suite s => s2n_cipher_suite_is_legal conn wire count cipher_suite_len s
  | _ => false

/-- Whether an entry is either a sentinel or a suite requiring at least
TLS 1.3. -/
def entryMin13 : Entry → Bool
  | Entry.suite s => decide (S2N_TLS13 ≤ s.minimum_required_tls_version)
  | _ => true

/-! ### Proof-side auxiliary definitions -/

/-- Re-embed an index-paired suite as a preference-list entry. -/
def embSuite (p : Nat × CipherSuite) : Nat × Entry := (p.1, Entry.suite p.2)

/-- The best-so-far accumulator of an equal-preference group, folded over
the group members exactly as the selection walk updates its
(negotiated_server_index, negotiated_client_index) pair inside a group. -/
def winnerFold (conn : Connection) (wire : List Nat)
    (count cipher_suite_len : Nat) (g : List (Nat × CipherSuite))
    (acc0 : Option (Nat × Nat)) : Option (Nat × Nat) :=
  g.foldl
    (fun acc p =>
      if s2n_cipher_suite_is_legal conn wire count cipher_suite_len p.2 then
        match s2n_wire_ciphers_has_server_cipher_at p.2.iana_value wire count cipher_suite_len with
        | none => acc
        | some j =>
          match acc with
          | none => some (p.1, j)
          | some (bi, bj) => if j < bj then some (p.1, j) else some (bi, bj)
      else acc)
    acc0

/-- The negotiated_client_index a group accumulator stands for. -/
def accClient (count : Nat) : Option (Nat × Nat) → Nat
  | none => count
  | some (_, bj) => bj

/-- The negotiated_server_index a group accumulator stands for. -/
def accServer : Option (Nat × Nat) → Int
  | none => -1
  | some (bi, _) => (bi : Int)

/-- Lexicographic (memcmp) order on 2-byte IANA codes. -/
def ianaLex (a b : Nat × Nat) : Prop :=
  a.1 < b.1 ∨ (a.1 = b.1 ∧ a.2 < b.2)

/-! ### Concrete fixtures for witnesses and counterexamples -/

/-- A catalog entry as initialized on a build where every bulk cipher is
available and post-quantum support is enabled. -/
def init_all (s : CipherSuite) : CipherSuite :=
  s2n_cipher_suites_init_suite (fun _ => true) true s

/-- Scenario S2 of the spec: an equal-preference group of the three TLS
1.3 suites on a TLS 1.3 connection. -/
def conn_s2 : Connection :=
  { actual_protocol_version := S2N_TLS13,
    client_protocol_version := S2N_TLS13,
    server_protocol_version := S2N_TLS13,
    cipher_preferences := [
      Entry.group_start,
      Entry.suite (init_all s2n_tls13_aes_128_gcm_sha256),
      Entry.suite (init_all s2n_tls13_aes_256_gcm_sha384),
      Entry.suite (init_all s2n_tls13_chacha20_poly1305_sha256),
      Entry.group_end] }

/-- Scenario S5 of the spec: a TLS 1.2 connection whose server preference
list holds only TLS 1.3 suites. -/
def conn_s5 : Connection :=
  { actual_protocol_version := S2N_TLS12,
    client_protocol_version := S2N_TLS12,
    server_protocol_version := S2N_TLS12,
    cipher_preferences := [Entry.suite (init_all s2n_tls13_aes_128_gcm_sha256)] }

/-- Higher-version fallback fixture: a TLS 1.0 connection offered a suite
with minimum version TLS 1.2. -/
def conn_hv : Connection :=
  { actual_protocol_version := S2N_TLS10,
    client_protocol_version := S2N_TLS10,
    server_protocol_version := S2N_TLS10,
    cipher_preferences := [Entry.suite (init_all s2n_ecdhe_rsa_with_aes_128_gcm_sha256)] }

/-- Scenario S3 of the spec: a client that fell back to TLS 1.1 against a
TLS 1.3 server. -/
def conn_s3 : Connection :=
  { actual_protocol_version := S2N_TLS11,
    client_protocol_version := S2N_TLS11,
    server_protocol_version := S2N_TLS13,
    cipher_preferences := [] }

/-- Scenario S4 of the spec: no overlap beyond the renegotiation SCSV. -/
def conn_s4 : Connection :=
  { actual_protocol_version := S2N_TLS12,
    client_protocol_version := S2N_TLS12,
    server_protocol_version := S2N_TLS12,
    cipher_preferences := [Entry.suite (init_all s2n_ecdhe_rsa_with_aes_128_gcm_sha256)] }

/-- Client-side fixture: a TLS 1.2 client whose policy offers only
ECDHE-RSA-AES128-GCM-SHA256. -/
def conn_client : Connection :=
  { actual_protocol_version := S2N_TLS12,
    cipher_preferences := [Entry.suite (init_all s2n_ecdhe_rsa_with_aes_128_gcm_sha256)] }

/-- Client-side HRR fixture: a TLS 1.3 client that pinned
TLS_AES_128_GCM_SHA256 in the HelloRetryRequest and offers the first two
TLS 1.3 suites. -/
def conn_hrr : Connection :=
  { actual_protocol_version := S2N_TLS13,
    secure_cipher_suite := some (init_all s2n_tls13_aes_128_gcm_sha256),
    hello_retry_handshake := true,
    hello_retry_message := false,
    cipher_preferences := [
      Entry.suite (init_all s2n_tls13_aes_128_gcm_sha256),
      Entry.suite (init_all s2n_tls13_aes_256_gcm_sha384)] }

/-- Server-side SSLv3 fixture: an SSLv3 connection offered AES128-SHA,
a suite whose SSLv3 shadow differs from the suite itself. -/
def conn_sslv3 : Connection :=
  { actual_protocol_version := S2N_SSLv3,
    client_protocol_version := S2N_SSLv3,
    server_protocol_version := S2N_SSLv3,
    cipher_preferences := [Entry.suite (init_all s2n_rsa_with_aes_128_cbc_sha)] }

/-! ## Theorems -/

/-- C10: for a null cipher-suite pointer, both public extension
predicates, s2n_cipher_suite_requires_ecc_extension and
s2n_cipher_suite_requires_pq_extension, return false rather than
failing. -/
theorem claim_C10 :
    s2n_cipher_suite_requires_ecc_extension none = false ∧
    s2n_cipher_suite_requires_pq_extension none = false :=
  ⟨rfl, rfl⟩

/-- C9: after the initializer completes, every suite of the static
catalog that is marked available carries a selected record algorithm;
both the candidate-scan path (which sets the two fields together) and the
post-quantum gating path (which clears them together) preserve this. -/
theorem claim_C9 (avail : CipherId → Bool) (pq_enabled : Bool) (s : CipherSuite)
    (hs : s ∈ s2n_cipher_suites_init avail pq_enabled)
    (hav : s.available = true) : s.record_alg.isSome = true := by
  rcases List.mem_map.mp hs with ⟨t, _, rfl⟩
  by_cases hg : (s2n_kex_includes_kem t.key_exchange_alg && !pq_enabled) = true
  · simp [s2n_cipher_suites_init_suite, hg] at hav
  · rcases hfind : t.all_record_algs.find? (fun r => avail r.cipher) with _ | r
    · simp [s2n_cipher_suites_init_suite, hfind, hg] at hav
    · simp [s2n_cipher_suites_init_suite, hfind, hg]

/-- Witness for C9 at a concrete input: the first catalog entry on a
build with every cipher available. -/
theorem claim_C9_witness :
    init_all s2n_rsa_with_rc4_128_md5 ∈ s2n_cipher_suites_init (fun _ => true) true ∧
    (init_all s2n_rsa_with_rc4_128_md5).available = true ∧
    (init_all s2n_rsa_with_rc4_128_md5).record_alg.isSome = true := by
  have hmem : init_all s2n_rsa_with_rc4_128_md5 ∈ s2n_cipher_suites_init (fun _ => true) true := by
    unfold s2n_cipher_suites_init init_all
    exact List.mem_map_of_mem _ (by unfold s2n_all_cipher_suites; exact List.mem_cons_self _ _)
  exact ⟨hmem, rfl, claim_C9 (fun _ => true) true _ hmem rfl⟩

/-- C6: when the client negotiated a protocol version below the server
version and the wire carries TLS_FALLBACK_SCSV, server-side selection
marks the connection closed and fails with FallbackDetected, touching
nothing else. -/
theorem claim_C6 (conn : Connection) (wire : List Nat) (count cipher_suite_len : Nat)
    (hver : conn.client_protocol_version < conn.server_protocol_version)
    (hscsv : s2n_wire_ciphers_contain TLS_FALLBACK_SCSV wire count cipher_suite_len = true) :
    s2n_set_cipher_as_server conn wire count cipher_suite_len =
      ({ conn with closed := true }, some S2NError.fallback_detected) := by
  simp [s2n_set_cipher_as_server, hver, hscsv]

/-- Witness for C6: scenario S3 of the spec. -/
theorem claim_C6_witness :
    s2n_set_cipher_as_server conn_s3 [0x56, 0x00] 1 2 =
      ({ conn_s3 with closed := true }, some S2NError.fallback_detected) :=
  claim_C6 conn_s3 [0x56, 0x00] 1 2 (by decide) (by decide)

/-- C4 counterexample: when the server's chosen code is absent from the
policy, client-side confirmation fails with CipherNotSupported, not with
IllegalParameter as the claim states. Scenario S6: confirming 0xC030
against a policy that lacks it. -/
theorem claim_C4_counterexample :
    (s2n_set_cipher_as_client conn_client (fun s => some s) (0xC0, 0x30)).2 =
      some S2NError.cipher_not_supported ∧
    (s2n_set_cipher_as_client conn_client (fun s => some s) (0xC0, 0x30)).2 ≠
      some S2NError.illegal_parameter := by
  constructor
  · rfl
  · decide

/-- C4 as amended: if the server's chosen wire code occurs nowhere in the
active policy's preference list, client-side confirmation fails with the
CipherNotSupported error kind (line 1169 of the source). -/
theorem claim_C4 (conn : Connection) (sslv3_of : CipherSuite → Option CipherSuite)
    (wire : Nat × Nat) (pinned : CipherSuite)
    (hpin : conn.secure_cipher_suite = some pinned)
    (habs : ∀ e ∈ conn.cipher_preferences, e.toSuite.iana_value ≠ wire) :
    s2n_set_cipher_as_client conn sslv3_of wire =
      (conn, some S2NError.cipher_not_supported) := by
  have hfind : conn.cipher_preferences.find? (fun e => e.toSuite.iana_value == wire) = none := by
    refine List.find?_eq_none.mpr fun e he => ?_
    simpa using habs e he
  unfold s2n_set_cipher_as_client
  rw [hpin, hfind]

/-- Witness for C4: scenario S6. -/
theorem claim_C4_witness :
    s2n_set_cipher_as_client conn_client (fun s => some s) (0xC0, 0x30) =
      (conn_client, some S2NError.cipher_not_supported) :=
  claim_C4 conn_client (fun s => some s) (0xC0, 0x30) s2n_null_cipher_suite rfl (by decide)

/-- C5 counterexample: a post-HelloRetryRequest ServerHello whose suite
code differs from the pinned one fails with CipherNotSupported, not with
IllegalParameter as the claim states (line 1191 of the source). -/
theorem claim_C5_counterexample :
    (s2n_set_cipher_as_client conn_hrr (fun s => some s) (0x13, 0x02)).2 =
      some S2NError.cipher_not_supported ∧
    (s2n_set_cipher_as_client conn_hrr (fun s => some s) (0x13, 0x02)).2 ≠
      some S2NError.illegal_parameter := by
  constructor
  · rfl
  · decide

/-- C5 as amended: in client-side confirmation of a post-HRR ServerHello
that passes the earlier membership, availability and PSK checks, a
mismatch between the freshly located suite's IANA code and the pinned
suite's IANA code fails with the CipherNotSupported error kind, and a
match succeeds (without re-committing). -/
theorem claim_C5 (conn : Connection) (sslv3_of : CipherSuite → Option CipherSuite)
    (wire : Nat × Nat) (pinned : CipherSuite) (e : Entry)
    (hpin : conn.secure_cipher_suite = some pinned)
    (hfind : conn.cipher_preferences.find? (fun x => x.toSuite.iana_value == wire) = some e)
    (havail : e.toSuite.available = true)
    (hpsk : ∀ h, conn.chosen_psk_hmac = some h → e.toSuite.prf_alg = h)
    (hhrr : conn.hello_retry_handshake = true)
    (hmsg : conn.hello_retry_message = false) :
    (pinned.iana_value ≠ e.toSuite.iana_value →
      s2n_set_cipher_as_client conn sslv3_of wire =
        (conn, some S2NError.cipher_not_supported)) ∧
    (pinned.iana_value = e.toSuite.iana_value →
      s2n_set_cipher_as_client conn sslv3_of wire = (conn, none)) := by
  have hpskb : (match conn.chosen_psk_hmac with
      | some h => e.toSuite.prf_alg != h
      | none => false) = false := by
    rcases hps : conn.chosen_psk_hmac with _ | h
    · rfl
    · simp [hpsk h hps]
  unfold s2n_set_cipher_as_client
  rw [hpin, hfind]
  simp only [havail, hpskb, hhrr, hmsg]
  constructor
  · intro hne
    simp [hne]
  · intro heq
    simp [heq]

/-- Witness for C5: the matching post-HRR confirmation of scenario
conn_hrr succeeds. -/
theorem claim_C5_witness :
    s2n_set_cipher_as_client conn_hrr (fun s => some s) (0x13, 0x01) = (conn_hrr, none) :=
  (claim_C5 conn_hrr (fun s => some s) (0x13, 0x01)
      (init_all s2n_tls13_aes_128_gcm_sha256)
      (Entry.suite (init_all s2n_tls13_aes_128_gcm_sha256))
      rfl rfl rfl (fun h hx => by cases hx) rfl rfl).2 rfl

/-- C3: the code contradicts the claim. On an SSLv3 connection the
server-side commit stores the selected suite itself; no sslv3_shadow
substitution happens on this path (lines 1415 to 1418 of the source),
although the suite has a distinct SSLv3 shadow and the client-side path
and the initializer are built around that substitution. -/
theorem claim_C3 :
    conn_sslv3.actual_protocol_version = S2N_SSLv3 ∧
    (s2n_set_cipher_as_server conn_sslv3 [0x00, 0x2F] 1 2).1.secure_cipher_suite =
      some (init_all s2n_rsa_with_aes_128_cbc_sha) ∧
    s2n_sslv3_cipher_suite_of (fun _ => true) true s2n_rsa_with_aes_128_cbc_sha ≠
      init_all s2n_rsa_with_aes_128_cbc_sha := by
  refine ⟨rfl, rfl, ?_⟩
  decide

/-- C7 counterexample: a wire carrying both TLS_FALLBACK_SCSV and
TLS_EMPTY_RENEGOTIATION_INFO_SCSV on a version-fallback connection fails
the downgrade check first, so secure_renegotiation is never set even
though the wire contains the renegotiation SCSV, contradicting the
claim's unconditional "whenever". -/
theorem claim_C7_counterexample :
    s2n_wire_ciphers_contain TLS_EMPTY_RENEGOTIATION_INFO_SCSV
      [0x56, 0x00, 0x00, 0xFF] 2 2 = true ∧
    (s2n_set_cipher_as_server conn_s3 [0x56, 0x00, 0x00, 0xFF] 2 2).1.secure_renegotiation =
      false ∧
    (s2n_set_cipher_as_server conn_s3 [0x56, 0x00, 0x00, 0xFF] 2 2).2 =
      some S2NError.fallback_detected := by
  decide

/-- C7 as amended: whenever the wire contains
TLS_EMPTY_RENEGOTIATION_INFO_SCSV and the downgrade-detection check does
not fail first, server-side selection sets secure_renegotiation and
continues; the flag remains set when selection then fails, so scenario S4
(wire containing only 0x00FF) yields CipherNotSupported with the flag
set. -/
theorem claim_C7 (conn : Connection) (wire : List Nat) (count cipher_suite_len : Nat)
    (hren : s2n_wire_ciphers_contain TLS_EMPTY_RENEGOTIATION_INFO_SCSV wire count
      cipher_suite_len = true)
    (hnofb : (decide (conn.client_protocol_version < conn.server_protocol_version) &&
      s2n_wire_ciphers_contain TLS_FALLBACK_SCSV wire count cipher_suite_len) = false) :
    (s2n_set_cipher_as_server conn wire count cipher_suite_len).1.secure_renegotiation =
      true ∧
    s2n_set_cipher_as_server conn_s4 [0x00, 0xFF] 1 2 =
      ({ conn_s4 with secure_renegotiation := true }, some S2NError.cipher_not_supported) := by
  constructor
  · unfold s2n_set_cipher_as_server
    rw [if_neg (by simp [hnofb])]
    simp only [hren, if_pos]
    split
    · rfl
    · split <;> rfl
  · rfl

/-- Witness for C7: scenario S4. -/
theorem claim_C7_witness :
    (s2n_set_cipher_as_server conn_s4 [0x00, 0xFF] 1 2).1.secure_renegotiation = true :=
  (claim_C7 conn_s4 [0x00, 0xFF] 1 2 (by decide) (by decide)).1

/-! ### Catalog lookup lemmas (claim C8) -/

theorem memcmp2_eq_iff (a b : Nat × Nat) : memcmp2 a b = Ordering.eq ↔ a = b := by
  unfold memcmp2
  rcases a with ⟨a1, a2⟩
  rcases b with ⟨b1, b2⟩
  split_ifs <;> simp_all [Prod.ext_iff] <;> omega

theorem memcmp2_gt_iff (a b : Nat × Nat) : memcmp2 a b = Ordering.gt ↔ ianaLex b a := by
  unfold memcmp2 ianaLex
  rcases a with ⟨a1, a2⟩
  rcases b with ⟨b1, b2⟩
  split_ifs <;> simp_all <;> omega

theorem memcmp2_lt_iff (a b : Nat × Nat) : memcmp2 a b = Ordering.lt ↔ ianaLex a b := by
  unfold memcmp2 ianaLex
  rcases a with ⟨a1, a2⟩
  rcases b with ⟨b1, b2⟩
  split_ifs <;> simp_all <;> omega

/-- The static catalog is sorted strictly ascending by IANA code. -/
theorem catalog_sorted :
    List.Pairwise (fun s t : CipherSuite => ianaLex s.iana_value t.iana_value)
      s2n_all_cipher_suites := by
  unfold s2n_all_cipher_suites ianaLex
  decide

theorem catalog_get_lex (i j : Fin s2n_all_cipher_suites.length) (h : i < j) :
    ianaLex (s2n_all_cipher_suites.get i).iana_value
      (s2n_all_cipher_suites.get j).iana_value :=
  List.pairwise_iff_get.mp catalog_sorted i j h

/-- Every run of the lookup loop either returns a catalog entry bearing
the searched code, or fails with CipherNotSupported. -/
theorem from_iana_loop_cases (iana : Nat × Nat) :
    ∀ (fuel : Nat) (low top : Int),
      (∃ s, s2n_cipher_suite_from_iana_loop iana fuel low top = Except.ok s ∧
        s ∈ s2n_all_cipher_suites ∧ s.iana_value = iana) ∨
      s2n_cipher_suite_from_iana_loop iana fuel low top =
        Except.error S2NError.cipher_not_supported := by
  intro fuel
  induction fuel with
  | zero =>
    intro low top
    exact Or.inr rfl
  | succ n ih =>
    intro low top
    by_cases hle : low ≤ top
    · have hstep : s2n_cipher_suite_from_iana_loop iana (n + 1) low top =
          match s2n_all_cipher_suites.get? (low + (top - low) / 2).toNat with
          | none => Except.error S2NError.cipher_not_supported
          | some s =>
            match memcmp2 s.iana_value iana with
            | Ordering.eq => Except.ok s
            | Ordering.gt =>
                s2n_cipher_suite_from_iana_loop iana n low (low + (top - low) / 2 - 1)
            | Ordering.lt =>
                s2n_cipher_suite_from_iana_loop iana n (low + (top - low) / 2 + 1) top := by
        conv_lhs => unfold s2n_cipher_suite_from_iana_loop
        rw [if_pos hle]
      rcases hget : s2n_all_cipher_suites.get? (low + (top - low) / 2).toNat with _ | m
      · right
        simp only [hstep, hget]
      · rcases hcmp : memcmp2 m.iana_value iana with _ | _ | _
        · rcases ih (low + (top - low) / 2 + 1) top with ⟨s, hs, hmem, hiana⟩ | herr
          · exact Or.inl ⟨s, by simp only [hstep, hget, hcmp, hs], hmem, hiana⟩
          · exact Or.inr (by simp only [hstep, hget, hcmp, herr])
        · exact Or.inl ⟨m, by simp only [hstep, hget, hcmp],
            List.get?_mem hget, (memcmp2_eq_iff _ _).mp hcmp⟩
        · rcases ih low (low + (top - low) / 2 - 1) with ⟨s, hs, hmem, hiana⟩ | herr
          · exact Or.inl ⟨s, by simp only [hstep, hget, hcmp, hs], hmem, hiana⟩
          · exact Or.inr (by simp only [hstep, hget, hcmp, herr])
    · right
      unfold s2n_cipher_suite_from_iana_loop
      rw [if_neg hle]

/-- Completeness of the binary search: with enough fuel, a code present
at index k inside the current interval is found. -/
theorem from_iana_loop_finds (iana : Nat × Nat) :
    ∀ (fuel : Nat) (low top : Int) (k : Nat) (hk : k < s2n_all_cipher_suites.length),
      (s2n_all_cipher_suites.get ⟨k, hk⟩).iana_value = iana →
      low ≤ (k : Int) → (k : Int) ≤ top →
      top < (s2n_all_cipher_suites.length : Int) → 0 ≤ low →
      (top + 1 - low).toNat ≤ fuel →
      ∃ s, s2n_cipher_suite_from_iana_loop iana fuel low top = Except.ok s ∧
        s ∈ s2n_all_cipher_suites ∧ s.iana_value = iana := by
  intro fuel
  induction fuel with
  | zero =>
    intro low top k hk hkiana hlow htop htoplen hlownn hfuel
    exfalso
    omega
  | succ n ih =>
    intro low top k hk hkiana hlow htop htoplen hlownn hfuel
    have hle : low ≤ top := le_trans hlow htop
    have hdiv1 : 0 ≤ (top - low) / 2 := Int.ediv_nonneg (by omega) (by norm_num)
    have hdiv2 : (top - low) / 2 ≤ top - low := Int.ediv_le_self _ (by omega)
    have hmid_ge : low ≤ low + (top - low) / 2 := by omega
    have hmid_le : low + (top - low) / 2 ≤ top := by omega
    have hmidlt : (low + (top - low) / 2).toNat < s2n_all_cipher_suites.length := by omega
    have hget : s2n_all_cipher_suites.get? (low + (top - low) / 2).toNat =
        some (s2n_all_cipher_suites.get ⟨(low + (top - low) / 2).toNat, hmidlt⟩) :=
      List.get?_eq_get hmidlt
    have hstep : s2n_cipher_suite_from_iana_loop iana (n + 1) low top =
        match s2n_all_cipher_suites.get? (low + (top - low) / 2).toNat with
        | none => Except.error S2NError.cipher_not_supported
        | some s =>
          match memcmp2 s.iana_value iana with
          | Ordering.eq => Except.ok s
          | Ordering.gt =>
              s2n_cipher_suite_from_iana_loop iana n low (low + (top - low) / 2 - 1)
          | Ordering.lt =>
              s2n_cipher_suite_from_iana_loop iana n (low + (top - low) / 2 + 1) top := by
      conv_lhs => unfold s2n_cipher_suite_from_iana_loop
      rw [if_pos hle]
    rcases hcmp : memcmp2 (s2n_all_cipher_suites.get
        ⟨(low + (top - low) / 2).toNat, hmidlt⟩).iana_value iana with _ | _ | _
    · -- lt: the middle code is below the target, search the upper half
      have hlex : ianaLex (s2n_all_cipher_suites.get
          ⟨(low + (top - low) / 2).toNat, hmidlt⟩).iana_value iana :=
        (memcmp2_lt_iff _ _).mp hcmp
      have hkgt : (low + (top - low) / 2).toNat < k := by
        by_contra hcon
        push_neg at hcon
        rcases Nat.lt_or_ge k (low + (top - low) / 2).toNat with hlt | hge
        · have := catalog_get_lex ⟨k, hk⟩ ⟨(low + (top - low) / 2).toNat, hmidlt⟩ hlt
          rw [hkiana] at this
          unfold ianaLex at this hlex
          omega
        · have hkeq : k = (low + (top - low) / 2).toNat := by omega
          subst hkeq
          rw [hkiana] at hlex
          unfold ianaLex at hlex
          omega
      rcases ih (low + (top - low) / 2 + 1) top k hk hkiana (by omega) htop htoplen
          (by omega) (by omega) with ⟨s, hs, hmem, hiana⟩
      exact ⟨s, by simp only [hstep, hget, hcmp, hs], hmem, hiana⟩
    · -- eq: found
      exact ⟨_, by simp only [hstep, hget, hcmp],
        List.get_mem _ _ _, (memcmp2_eq_iff _ _).mp hcmp⟩
    · -- gt: the middle code is above the target, search the lower half
      have hlex : ianaLex iana (s2n_all_cipher_suites.get
          ⟨(low + (top - low) / 2).toNat, hmidlt⟩).iana_value :=
        (memcmp2_gt_iff _ _).mp hcmp
      have hklt : k < (low + (top - low) / 2).toNat := by
        by_contra hcon
        push_neg at hcon
        rcases Nat.lt_or_ge (low + (top - low) / 2).toNat k with hlt | hge
        · have := catalog_get_lex ⟨(low + (top - low) / 2).toNat, hmidlt⟩ ⟨k, hk⟩ hlt
          rw [hkiana] at this
          unfold ianaLex at this hlex
          omega
        · have hkeq : k = (low + (top - low) / 2).toNat := by omega
          subst hkeq
          rw [hkiana] at hcmp
          rw [(memcmp2_eq_iff _ _).mpr rfl] at hcmp
          cases hcmp
      rcases ih low (low + (top - low) / 2 - 1) k hk hkiana hlow (by omega)
          (by omega) hlownn (by omega) with ⟨s, hs, hmem, hiana⟩
      exact ⟨s, by simp only [hstep, hget, hcmp, hs], hmem, hiana⟩

/-- C8: s2n_cipher_suite_from_iana, a binary search over the statically
sorted catalog, returns the unique catalog entry bearing any code present
in the catalog and fails with CipherNotSupported on every code absent
from it; catalog codes are pairwise distinct, so the returned entry is
that entry. -/
theorem claim_C8 (iana : Nat × Nat) :
    ((∃ s ∈ s2n_all_cipher_suites, s.iana_value = iana) →
      ∃ s, s2n_cipher_suite_from_iana iana = Except.ok s ∧
        s ∈ s2n_all_cipher_suites ∧ s.iana_value = iana) ∧
    ((∀ s ∈ s2n_all_cipher_suites, s.iana_value ≠ iana) →
      s2n_cipher_suite_from_iana iana = Except.error S2NError.cipher_not_supported) ∧
    (∀ s ∈ s2n_all_cipher_suites, ∀ t ∈ s2n_all_cipher_suites,
      s.iana_value = t.iana_value → s = t) := by
  refine ⟨?_, ?_, ?_⟩
  · rintro ⟨s, hmem, hiana⟩
    rcases List.mem_iff_get.mp hmem with ⟨⟨k, hk⟩, hkget⟩
    have hkiana : (s2n_all_cipher_suites.get ⟨k, hk⟩).iana_value = iana := by
      rw [hkget, hiana]
    have hlen : s2n_all_cipher_suites.length = 37 := rfl
    exact from_iana_loop_finds iana s2n_all_cipher_suites.length 0
      ((s2n_all_cipher_suites.length : Int) - 1) k hk hkiana (by omega)
      (by omega) (by omega) (by omega) (by omega)
  · intro habs
    rcases from_iana_loop_cases iana s2n_all_cipher_suites.length 0
        ((s2n_all_cipher_suites.length : Int) - 1) with ⟨s, _, hmem, hiana⟩ | herr
    · exact absurd hiana (habs s hmem)
    · exact herr
  · intro s hs t ht hst
    by_contra hne
    have hpair : List.Pairwise (fun a b : CipherSuite => a.iana_value ≠ b.iana_value)
        s2n_all_cipher_suites :=
      catalog_sorted.imp (fun h => by unfold ianaLex at h; intro heq; rw [heq] at h; omega)
    exact hpair.forall (by intro a b h heq; exact h heq.symm) hs ht hne hst

/-- Witness for C8: the lookup finds TLS_AES_128_GCM_SHA256 and rejects
the null code 0x0000, which is absent from the catalog. -/
theorem claim_C8_witness :
    (∃ s, s2n_cipher_suite_from_iana (0x13, 0x01) = Except.ok s ∧
      s ∈ s2n_all_cipher_suites ∧ s.iana_value = (0x13, 0x01)) ∧
    s2n_cipher_suite_from_iana (0x00, 0x00) =
      Except.error S2NError.cipher_not_supported :=
  ⟨(claim_C8 (0x13, 0x01)).1
      ⟨s2n_tls13_aes_128_gcm_sha256,
        by unfold s2n_all_cipher_suites; simp, rfl⟩,
    (claim_C8 (0x00, 0x00)).2.1 (by decide)⟩

/-! ### Higher-version fallback lemmas (claim C2) -/

theorem enum_snd_mem {α : Type} {l : List α} {p : Nat × α} (hp : p ∈ l.enum) :
    p.2 ∈ l := by
  have h1 : p.2 ∈ l.enum.map Prod.snd := List.mem_map_of_mem _ hp
  rwa [List.enum_map_snd] at h1

/-- When no preference-list entry is legal for the connection, the walk
adopts nothing and falls through to the higher-version fallback. -/
theorem negotiate_loop_no_eligible (conn : Connection) (wire : List Nat)
    (count cipher_suite_len : Nat) :
    ∀ (l : List (Nat × Entry)) (ing : Bool) (bc : Nat) (hv : Int),
      (∀ p ∈ l, entryIsLegal conn wire count cipher_suite_len p.2 = false) →
      s2n_negotiate_loop conn wire count cipher_suite_len l ing bc (-1) hv =
        (if hv == -1 then
          match firstHigherVersIndex conn wire count cipher_suite_len l with
          | some i => (i : Int)
          | none => -1
        else hv) := by
  intro l
  induction l with
  | nil =>
    intro ing bc hv _
    by_cases hhv : hv = -1 <;>
      simp [s2n_negotiate_loop, firstHigherVersIndex, hhv]
  | cons p rest ih =>
    intro ing bc hv hne
    have hnr : ∀ q ∈ rest, entryIsLegal conn wire count cipher_suite_len q.2 = false :=
      fun q hq => hne q (List.mem_cons_of_mem _ hq)
    rcases p with ⟨i, e⟩
    rcases e with _ | _ | s
    · simpa [s2n_negotiate_loop, firstHigherVersIndex] using ih true bc hv hnr
    · simpa [s2n_negotiate_loop, firstHigherVersIndex] using ih false bc hv hnr
    · have hle : s2n_cipher_suite_is_legal conn wire count cipher_suite_len s = false :=
        hne (i, Entry.suite s) (List.mem_cons_self _ _)
      rcases hidx : s2n_wire_ciphers_has_server_cipher_at s.iana_value wire count
          cipher_suite_len with _ | j
      · have hhm : s2n_higher_vers_match conn wire count cipher_suite_len s = false := by
          simp [s2n_higher_vers_match, hidx]
        simpa [s2n_negotiate_loop, firstHigherVersIndex, hidx, hhm] using ih ing bc hv hnr
      · rcases hval : s2n_cipher_suite_match_is_valid conn s with _ | _
        · have hhm : s2n_higher_vers_match conn wire count cipher_suite_len s = false := by
            simp [s2n_higher_vers_match, hval]
          simpa [s2n_negotiate_loop, firstHigherVersIndex, hidx, hval, hhm] using
            ih ing bc hv hnr
        · have hvers : conn.actual_protocol_version < s.minimum_required_tls_version := by
            have := hle
            simp [s2n_cipher_suite_is_legal, hidx, hval] at this
            omega
          have hhm : s2n_higher_vers_match conn wire count cipher_suite_len s = true := by
            simp [s2n_higher_vers_match, hidx, hval, hvers]
          rcases Decidable.em (hv = -1) with hhv | hhv
          · subst hhv
            have hrw := ih ing bc (i : Int) hnr
            simp [s2n_negotiate_loop, firstHigherVersIndex, hidx, hval, hvers, hhm, hrw]
          · have hrw := ih ing bc hv hnr
            have hb : (hv == (-1 : Int)) = false := by
              simp [hhv]
            simp [s2n_negotiate_loop, firstHigherVersIndex, hidx, hval, hvers, hhm, hrw, hb]

/-- Characterization of firstHigherVersIndex over an enumerated list: it
is the earliest index bearing a higher-version fallback suite. -/
theorem firstHigher_enumFrom_spec (conn : Connection) (wire : List Nat)
    (count cipher_suite_len : Nat) :
    ∀ (prefs : List Entry) (n k : Nat),
      firstHigherVersIndex conn wire count cipher_suite_len (List.enumFrom n prefs) =
        some k →
      n ≤ k ∧
      (∃ s, prefs.get? (k - n) = some (Entry.suite s) ∧
        s2n_higher_vers_match conn wire count cipher_suite_len s = true) ∧
      (∀ j s, prefs.get? j = some (Entry.suite s) →
        s2n_higher_vers_match conn wire count cipher_suite_len s = true → k ≤ n + j) := by
  intro prefs
  induction prefs with
  | nil =>
    intro n k h
    simp [firstHigherVersIndex] at h
  | cons e rest ih =>
    intro n k h
    rcases e with _ | _ | s
    · rw [List.enumFrom_cons] at h
      have h' := h
      simp only [firstHigherVersIndex] at h'
      rcases ih (n + 1) k h' with ⟨hnk, ⟨s', hget, hmatch⟩, hmin⟩
      refine ⟨by omega, ⟨s', ?_, hmatch⟩, ?_⟩
      · have : k - n = (k - (n + 1)) + 1 := by omega
        rw [this]
        simpa using hget
      · intro j s' hj hm
        rcases j with _ | j
        · simp at hj
        · have := hmin j s' (by simpa using hj) hm
          omega
    · rw [List.enumFrom_cons] at h
      have h' := h
      simp only [firstHigherVersIndex] at h'
      rcases ih (n + 1) k h' with ⟨hnk, ⟨s', hget, hmatch⟩, hmin⟩
      refine ⟨by omega, ⟨s', ?_, hmatch⟩, ?_⟩
      · have : k - n = (k - (n + 1)) + 1 := by omega
        rw [this]
        simpa using hget
      · intro j s' hj hm
        rcases j with _ | j
        · simp at hj
        · have := hmin j s' (by simpa using hj) hm
          omega
    · rw [List.enumFrom_cons] at h
      rcases hm : s2n_higher_vers_match conn wire count cipher_suite_len s with _ | _
      · have h' := h
        simp only [firstHigherVersIndex, hm] at h'
        simp only [Bool.false_eq_true, if_false] at h'
        rcases ih (n + 1) k h' with ⟨hnk, ⟨s', hget, hmatch⟩, hmin⟩
        refine ⟨by omega, ⟨s', ?_, hmatch⟩, ?_⟩
        · have : k - n = (k - (n + 1)) + 1 := by omega
          rw [this]
          simpa using hget
        · intro j s' hj hmj
          rcases j with _ | j
          · simp at hj
            rw [← hj] at hmj
            rw [hmj] at hm
            cases hm
          · have := hmin j s' (by simpa using hj) hmj
            omega
      · have h' := h
        simp only [firstHigherVersIndex, hm, if_true] at h'
        have hkn : k = n := by
          cases h'
          rfl
        subst hkn
        refine ⟨le_refl _, ⟨s, by simp, hm⟩, ?_⟩
        intro j s' _ _
        omega

/-- Validation always rejects a TLS 1.3 suite on a pre-TLS 1.3
connection: the partition check fires before anything else. -/
theorem match_is_valid_barrier (c : Connection) (s : CipherSuite)
    (h1 : c.actual_protocol_version < S2N_TLS13)
    (h2 : S2N_TLS13 ≤ s.minimum_required_tls_version) :
    s2n_cipher_suite_match_is_valid c s = false := by
  have hb1 : decide (S2N_TLS13 ≤ c.actual_protocol_version) = false := by
    simp
    omega
  have hb2 : decide (S2N_TLS13 ≤ s.minimum_required_tls_version) = true := by
    simpa using h2
  simp [s2n_cipher_suite_match_is_valid, hb1, hb2]

/-- The selection walk of a connection below TLS 1.3 whose preference
list holds only TLS 1.3 suites yields no index at all: the partition
check rejects candidates during validation, before the higher-version
fallback could record them. -/
theorem negotiated_index_barrier (wire : List Nat) (count cipher_suite_len : Nat)
    (c : Connection) (hbar : c.actual_protocol_version < S2N_TLS13)
    (hall : ∀ e ∈ c.cipher_preferences, entryMin13 e = true) :
    s2n_get_negotiated_server_index c wire count cipher_suite_len = -1 := by
  have hne : ∀ p ∈ c.cipher_preferences.enum,
      entryIsLegal c wire count cipher_suite_len p.2 = false := by
    intro p hp
    rcases p with ⟨i, e⟩
    rcases e with _ | _ | s
    · rfl
    · rfl
    · have hmem := enum_snd_mem hp
      have h13 : S2N_TLS13 ≤ s.minimum_required_tls_version := by
        have := hall _ hmem
        simpa [entryMin13] using this
      simp [entryIsLegal, s2n_cipher_suite_is_legal,
        match_is_valid_barrier c s hbar h13]
  have hhv : firstHigherVersIndex c wire count cipher_suite_len
      c.cipher_preferences.enum = none := by
    rcases hres : firstHigherVersIndex c wire count cipher_suite_len
        c.cipher_preferences.enum with _ | k
    · rfl
    · exfalso
      have hspec := firstHigher_enumFrom_spec c wire count cipher_suite_len
        c.cipher_preferences 0 k (by simpa [List.enum] using hres)
      rcases hspec with ⟨_, ⟨s, hget, hmatch⟩, _⟩
      have hmem : Entry.suite s ∈ c.cipher_preferences := List.get?_mem hget
      have h13 : S2N_TLS13 ≤ s.minimum_required_tls_version := by
        have := hall _ hmem
        simpa [entryMin13] using this
      have : s2n_cipher_suite_match_is_valid c s = false :=
        match_is_valid_barrier c s hbar h13
      rw [s2n_higher_vers_match] at hmatch
      simp [this] at hmatch
  unfold s2n_get_negotiated_server_index
  rw [negotiate_loop_no_eligible c wire count cipher_suite_len _ false
    count (-1) hne]
  simp [hhv]

/-- C2: if no preference-list suite is legal for the connection but some
matched-and-valid suite requires a higher version, selection returns the
earliest such index; and the TLS 1.3 partition check never populates this
fallback, so a pre-TLS 1.3 connection offered only TLS 1.3 suites fails
with CipherNotSupported. -/
theorem claim_C2 (conn : Connection) (wire : List Nat) (count cipher_suite_len : Nat) :
    ((∀ e ∈ conn.cipher_preferences,
        entryIsLegal conn wire count cipher_suite_len e = false) →
      ∀ k, firstHigherVersIndex conn wire count cipher_suite_len
          conn.cipher_preferences.enum = some k →
        s2n_get_negotiated_server_index conn wire count cipher_suite_len = (k : Int) ∧
        (∃ s, conn.cipher_preferences.get? k = some (Entry.suite s) ∧
          s2n_higher_vers_match conn wire count cipher_suite_len s = true) ∧
        (∀ j s, conn.cipher_preferences.get? j = some (Entry.suite s) →
          s2n_higher_vers_match conn wire count cipher_suite_len s = true → k ≤ j)) ∧
    (conn.actual_protocol_version < S2N_TLS13 →
      (∀ e ∈ conn.cipher_preferences, entryMin13 e = true) →
      (decide (conn.client_protocol_version < conn.server_protocol_version) &&
        s2n_wire_ciphers_contain TLS_FALLBACK_SCSV wire count cipher_suite_len) = false →
      (s2n_set_cipher_as_server conn wire count cipher_suite_len).2 =
        some S2NError.cipher_not_supported) := by
  constructor
  · intro hne k hk
    have hne' : ∀ p ∈ conn.cipher_preferences.enum,
        entryIsLegal conn wire count cipher_suite_len p.2 = false :=
      fun p hp => hne p.2 (enum_snd_mem hp)
    have hloop := negotiate_loop_no_eligible conn wire count cipher_suite_len
      conn.cipher_preferences.enum false count (-1) hne'
    have hspec := firstHigher_enumFrom_spec conn wire count cipher_suite_len
      conn.cipher_preferences 0 k (by simpa [List.enum] using hk)
    rcases hspec with ⟨_, ⟨s, hget, hmatch⟩, hmin⟩
    refine ⟨?_, ⟨s, by simpa using hget, hmatch⟩, ?_⟩
    · unfold s2n_get_negotiated_server_index
      rw [hloop]
      simp [hk]
    · intro j s' hj hm
      have := hmin j s' hj hm
      omega
  · intro hbar hall hnofb
    unfold s2n_set_cipher_as_server
    rw [if_neg (by simp [hnofb])]
    rcases hct : s2n_wire_ciphers_contain TLS_EMPTY_RENEGOTIATION_INFO_SCSV wire count
        cipher_suite_len with _ | _
    · simp only [hct, Bool.false_eq_true, if_false]
      rw [negotiated_index_barrier wire count cipher_suite_len conn hbar hall]
      rfl
    · simp only [hct, if_true]
      rw [negotiated_index_barrier wire count cipher_suite_len
        { conn with secure_renegotiation := true } hbar hall]
      rfl

/-- Witness for C2: the fallback fires for a TLS 1.0 connection offered a
TLS 1.2 suite, and scenario S5 ends in CipherNotSupported. -/
theorem claim_C2_witness :
    s2n_get_negotiated_server_index conn_hv [0xC0, 0x2F] 1 2 = 0 ∧
    (s2n_set_cipher_as_server conn_s5 [0x13, 0x01] 1 2).2 =
      some S2NError.cipher_not_supported :=
  ⟨(((claim_C2 conn_hv [0xC0, 0x2F] 1 2).1 (by decide) 0 (by decide))).1,
    (claim_C2 conn_s5 [0x13, 0x01] 1 2).2 (by decide) (by decide) (by decide)⟩

/-! ### Equal-preference group lemmas (claim C1) -/

theorem wire_index_lt_count (mtch : Nat × Nat) (wire : List Nat)
    (count cipher_suite_len j : Nat)
    (h : s2n_wire_ciphers_has_server_cipher_at mtch wire count cipher_suite_len = some j) :
    j < count := by
  have hmem : j ∈ List.range count := List.mem_of_find?_eq_some h
  simpa using hmem

/-- Inversion of the parser inside a group: the remaining input is the
group tail, the closing sentinel, and the remainder. -/
theorem toBlocksAux_group :
    ∀ (l : List (Nat × Entry)) (gacc : List (Nat × CipherSuite)) (blocks : List Block),
      toBlocksAux l (some gacc) = some blocks →
      ∃ (gtail : List (Nat × CipherSuite)) (ie : Nat) (rest2 : List (Nat × Entry))
        (blocks2 : List Block),
        l = gtail.map embSuite ++ (ie, Entry.group_end) :: rest2 ∧
        blocks = Block.group (gacc ++ gtail) :: blocks2 ∧
        toBlocksAux rest2 none = some blocks2 := by
  intro l
  induction l with
  | nil =>
    intro gacc blocks h
    simp [toBlocksAux] at h
  | cons p rest ih =>
    intro gacc blocks h
    rcases p with ⟨i, e⟩
    rcases e with _ | _ | s
    · simp [toBlocksAux] at h
    · simp only [toBlocksAux] at h
      rcases hrest : toBlocksAux rest none with _ | blocks2
      · rw [hrest] at h
        simp at h
      · rw [hrest] at h
        simp at h
        refine ⟨[], i, rest, blocks2, by simp, ?_, hrest⟩
        simp [← h]
    · simp only [toBlocksAux] at h
      rcases ih (gacc ++ [(i, s)]) blocks h with
        ⟨gtail, ie, rest2, blocks2, hsplit, hblocks, hrest2⟩
      refine ⟨(i, s) :: gtail, ie, rest2, blocks2, ?_, ?_, hrest2⟩
      · simp [hsplit, embSuite]
      · rw [hblocks]
        simp

/-- The group winner is the first component of the guarded fold. -/
theorem groupWinner_eq_winnerFold (conn : Connection) (wire : List Nat)
    (count cipher_suite_len : Nat) (g : List (Nat × CipherSuite)) :
    groupWinner conn wire count cipher_suite_len g =
      (winnerFold conn wire count cipher_suite_len g none).map Prod.fst := by
  have hfold : ∀ (gs : List (Nat × CipherSuite)) (acc : Option (Nat × Nat)),
      (gs.filter fun p =>
        s2n_cipher_suite_is_legal conn wire count cipher_suite_len p.2).foldl
        (fun acc p =>
          match s2n_wire_ciphers_has_server_cipher_at p.2.iana_value wire count
              cipher_suite_len with
          | none => acc
          | some j =>
            match acc with
            | none => some (p.1, j)
            | some (bi, bj) => if j < bj then some (p.1, j) else some (bi, bj)) acc =
      winnerFold conn wire count cipher_suite_len gs acc := by
    intro gs
    induction gs with
    | nil => intro acc; rfl
    | cons p grest ih =>
      intro acc
      rcases hleg : s2n_cipher_suite_is_legal conn wire count cipher_suite_len p.2 with _ | _
      · simp only [winnerFold, List.foldl_cons, List.filter_cons, hleg]
        exact ih acc
      · simp only [winnerFold, List.filter_cons, hleg, if_true, List.foldl_cons]
        exact ih _
  simp only [groupWinner]
  rw [hfold]

/-- Walking the members of an equal-preference group transforms the best
pair exactly as the guarded fold does, leaving the walk positioned at the
tail. -/
theorem negotiate_loop_group (conn : Connection) (wire : List Nat)
    (count cipher_suite_len : Nat) :
    ∀ (g : List (Nat × CipherSuite)) (tail : List (Nat × Entry))
      (acc : Option (Nat × Nat)) (hv : Int),
      ∃ (hv' : Int),
        s2n_negotiate_loop conn wire count cipher_suite_len
          (g.map embSuite ++ tail) true (accClient count acc) (accServer acc) hv =
        s2n_negotiate_loop conn wire count cipher_suite_len tail true
          (accClient count (winnerFold conn wire count cipher_suite_len g acc))
          (accServer (winnerFold conn wire count cipher_suite_len g acc)) hv' := by
  intro g
  induction g with
  | nil =>
    intro tail acc hv
    exact ⟨hv, rfl⟩
  | cons p grest ih =>
    intro tail acc hv
    rcases p with ⟨i, s⟩
    rcases hidx : s2n_wire_ciphers_has_server_cipher_at s.iana_value wire count
        cipher_suite_len with _ | j
    · have hleg : s2n_cipher_suite_is_legal conn wire count cipher_suite_len s = false := by
        simp [s2n_cipher_suite_is_legal, hidx]
      rcases ih tail acc hv with ⟨hv', heq⟩
      refine ⟨hv', ?_⟩
      simpa [s2n_negotiate_loop, embSuite, hidx, winnerFold, List.foldl_cons, hleg] using heq
    · rcases hval : s2n_cipher_suite_match_is_valid conn s with _ | _
      · have hleg : s2n_cipher_suite_is_legal conn wire count cipher_suite_len s = false := by
          simp [s2n_cipher_suite_is_legal, hval]
        rcases ih tail acc hv with ⟨hv', heq⟩
        refine ⟨hv', ?_⟩
        simpa [s2n_negotiate_loop, embSuite, hidx, hval, winnerFold, List.foldl_cons, hleg] using heq
      · rcases Nat.lt_or_ge conn.actual_protocol_version s.minimum_required_tls_version
          with hvers | hvers
        · -- higher-version candidate: only the fallback register changes
          have hleg : s2n_cipher_suite_is_legal conn wire count cipher_suite_len s =
              false := by
            simp [s2n_cipher_suite_is_legal, hidx, hval]
            omega
          rcases ih tail acc (if hv == -1 then (i : Int) else hv) with ⟨hv', heq⟩
          refine ⟨hv', ?_⟩
          simpa [s2n_negotiate_loop, embSuite, hidx, hval, hvers, winnerFold, List.foldl_cons, hleg] using heq
        · -- legal candidate: the pair is updated exactly as the fold does
          have hleg : s2n_cipher_suite_is_legal conn wire count cipher_suite_len s =
              true := by
            simp [s2n_cipher_suite_is_legal, hidx, hval]
            omega
          have hnv : ¬ conn.actual_protocol_version < s.minimum_required_tls_version := by
            omega
          rcases acc with _ | ⟨bi, bj⟩
          · have hjc : j < count := wire_index_lt_count _ _ _ _ _ hidx
            rcases ih tail (some (i, j)) hv with ⟨hv', heq⟩
            refine ⟨hv', ?_⟩
            simpa [s2n_negotiate_loop, embSuite, hidx, hval, hnv, hjc, winnerFold, List.foldl_cons, hleg, accClient, accServer] using heq
          · rcases Nat.lt_or_ge j bj with hj | hj
            · rcases ih tail (some (i, j)) hv with ⟨hv', heq⟩
              refine ⟨hv', ?_⟩
              simpa [s2n_negotiate_loop, embSuite, hidx, hval, hnv, hj, winnerFold, List.foldl_cons, hleg, accClient, accServer] using heq
            · have hnj : ¬ j < bj := by omega
              rcases ih tail (some (bi, bj)) hv with ⟨hv', heq⟩
              refine ⟨hv', ?_⟩
              simpa [s2n_negotiate_loop, embSuite, hidx, hval, hnv, hnj, winnerFold, List.foldl_cons, hleg, accClient, accServer] using heq

/-- The selection walk started outside any group agrees with the
declarative block specification whenever the latter selects a suite. -/
theorem negotiate_loop_blocks (conn : Connection) (wire : List Nat)
    (count cipher_suite_len : Nat) :
    ∀ (N : Nat) (l : List (Nat × Entry)) (blocks : List Block) (k : Nat) (hv : Int),
      l.length ≤ N →
      toBlocksAux l none = some blocks →
      specSelect conn wire count cipher_suite_len blocks = some k →
      s2n_negotiate_loop conn wire count cipher_suite_len l false count (-1) hv =
        (k : Int) := by
  intro N
  induction N with
  | zero =>
    intro l blocks k hv hlen hparse hsel
    have hl : l = [] := List.length_eq_zero.mp (Nat.le_zero.mp hlen)
    subst hl
    simp only [toBlocksAux, Option.some.injEq] at hparse
    rw [← hparse] at hsel
    simp [specSelect] at hsel
  | succ n ih =>
    intro l blocks k hv hlen hparse hsel
    cases l with
    | nil =>
      simp only [toBlocksAux, Option.some.injEq] at hparse
      rw [← hparse] at hsel
      simp [specSelect] at hsel
    | cons p rest =>
      rcases p with ⟨i, e⟩
      rcases e with _ | _ | s
      · -- GROUP_START: enter the group and process it with the group lemma
        simp only [toBlocksAux] at hparse
        rcases toBlocksAux_group rest [] blocks hparse with
          ⟨gtail, ie, rest2, blocks2, hsplit, hblocks, hrest2⟩
        rw [hblocks] at hsel
        simp only [List.nil_append] at hsel
        have hlen2 : rest2.length ≤ n := by
          have h1 := hlen
          rw [hsplit] at h1
          simp only [List.length_cons, List.length_append, List.length_map] at h1
          omega
        have hstep : s2n_negotiate_loop conn wire count cipher_suite_len
            ((i, Entry.group_start) :: rest) false count (-1) hv =
            s2n_negotiate_loop conn wire count cipher_suite_len rest true count (-1) hv := by
          simp [s2n_negotiate_loop]
        rw [hstep, hsplit]
        obtain ⟨hv', heq⟩ := negotiate_loop_group conn wire count cipher_suite_len
          gtail ((ie, Entry.group_end) :: rest2) none hv
        have heq' : s2n_negotiate_loop conn wire count cipher_suite_len
            (gtail.map embSuite ++ (ie, Entry.group_end) :: rest2) true count (-1) hv =
            s2n_negotiate_loop conn wire count cipher_suite_len
              ((ie, Entry.group_end) :: rest2) true
              (accClient count (winnerFold conn wire count cipher_suite_len gtail none))
              (accServer (winnerFold conn wire count cipher_suite_len gtail none))
              hv' := heq
        rw [heq']
        rcases hwf : winnerFold conn wire count cipher_suite_len gtail none with _ | ⟨bi, bj⟩
        · have hgw : groupWinner conn wire count cipher_suite_len gtail = none := by
            rw [groupWinner_eq_winnerFold, hwf]
            rfl
          have hsel2 : specSelect conn wire count cipher_suite_len blocks2 = some k := by
            simpa [specSelect, hgw] using hsel
          simp only [accClient, accServer]
          have hend : s2n_negotiate_loop conn wire count cipher_suite_len
              ((ie, Entry.group_end) :: rest2) true count (-1) hv' =
              s2n_negotiate_loop conn wire count cipher_suite_len rest2 false count
                (-1) hv' := by
            simp [s2n_negotiate_loop]
          rw [hend]
          exact ih rest2 blocks2 k hv' hlen2 hrest2 hsel2
        · have hgw : groupWinner conn wire count cipher_suite_len gtail = some bi := by
            rw [groupWinner_eq_winnerFold, hwf]
            rfl
          have hk : bi = k := by
            simpa [specSelect, hgw] using hsel
          rw [← hk]
          simp only [accClient, accServer]
          have hne : (((bi : Int) != -1)) = true := by
            simp [bne]
          simp [s2n_negotiate_loop, hne]
      · -- GROUP_END outside a group: the parse fails, nothing to prove
        simp [toBlocksAux] at hparse
      · -- ordinary suite outside any group
        simp only [toBlocksAux] at hparse
        rcases hrest : toBlocksAux rest none with _ | blocks2
        · rw [hrest] at hparse
          simp at hparse
        · rw [hrest] at hparse
          simp only [Option.map_some', Option.some.injEq] at hparse
          rw [← hparse] at hsel
          have hlen2 : rest.length ≤ n := by
            simp only [List.length_cons] at hlen
            omega
          rcases hleg : s2n_cipher_suite_is_legal conn wire count cipher_suite_len s
            with _ | _
          · -- not legal: the walk skips this suite, by cases on why
            have hsel2 : specSelect conn wire count cipher_suite_len blocks2 = some k := by
              simpa [specSelect, hleg] using hsel
            rcases hidx : s2n_wire_ciphers_has_server_cipher_at s.iana_value wire count
                cipher_suite_len with _ | j
            · have hstep : s2n_negotiate_loop conn wire count cipher_suite_len
                  ((i, Entry.suite s) :: rest) false count (-1) hv =
                  s2n_negotiate_loop conn wire count cipher_suite_len rest false count
                    (-1) hv := by
                simp [s2n_negotiate_loop, hidx]
              rw [hstep]
              exact ih rest blocks2 k hv hlen2 hrest hsel2
            · rcases hval : s2n_cipher_suite_match_is_valid conn s with _ | _
              · have hstep : s2n_negotiate_loop conn wire count cipher_suite_len
                    ((i, Entry.suite s) :: rest) false count (-1) hv =
                    s2n_negotiate_loop conn wire count cipher_suite_len rest false count
                      (-1) hv := by
                  simp [s2n_negotiate_loop, hidx, hval]
                rw [hstep]
                exact ih rest blocks2 k hv hlen2 hrest hsel2
              · have hvers : conn.actual_protocol_version <
                    s.minimum_required_tls_version := by
                  have := hleg
                  simp [s2n_cipher_suite_is_legal, hidx, hval] at this
                  omega
                have hstep : s2n_negotiate_loop conn wire count cipher_suite_len
                    ((i, Entry.suite s) :: rest) false count (-1) hv =
                    s2n_negotiate_loop conn wire count cipher_suite_len rest false count
                      (-1) (if hv == -1 then (i : Int) else hv) := by
                  simp [s2n_negotiate_loop, hidx, hval, hvers]
                rw [hstep]
                exact ih rest blocks2 k (if hv == -1 then (i : Int) else hv) hlen2
                  hrest hsel2
          · -- legal: the walk adopts and returns immediately
            have hk : i = k := by
              simpa [specSelect, hleg] using hsel
            rw [← hk]
            have hl := hleg
            simp only [s2n_cipher_suite_is_legal, Bool.and_eq_true,
              Option.isSome_iff_exists, decide_eq_true_eq] at hl
            rcases hl with ⟨⟨⟨j, hidx⟩, hval⟩, hvers⟩
            have hnv : ¬ conn.actual_protocol_version <
                s.minimum_required_tls_version := by
              omega
            simp [s2n_negotiate_loop, hidx, hval, hnv]

/-- C1: for every well-formed server preference list (one that parses
into blocks), client wire list and connection, the index selected by
s2n_get_negotiated_server_index is the one given by the declarative
specification: the first block containing a legal suite decides, a lone
suite being returned immediately and an equal-preference group returning
the legal member whose client-list index is minimal. -/
theorem claim_C1 (conn : Connection) (wire : List Nat) (count cipher_suite_len : Nat)
    (blocks : List Block) (k : Nat)
    (hwf : toBlocks conn.cipher_preferences.enum = some blocks)
    (hsel : specSelect conn wire count cipher_suite_len blocks = some k) :
    s2n_get_negotiated_server_index conn wire count cipher_suite_len = (k : Int) := by
  unfold s2n_get_negotiated_server_index
  exact negotiate_loop_blocks conn wire count cipher_suite_len
    conn.cipher_preferences.enum.length conn.cipher_preferences.enum blocks k (-1)
    (le_refl _) hwf hsel

/-- Witness for C1: scenario S2 of the spec. The wire order is the
reverse of the server group order, and the client's first choice 0x1303,
at server index 3, wins. -/
theorem claim_C1_witness :
    toBlocks conn_s2.cipher_preferences.enum =
      some [Block.group [(1, init_all s2n_tls13_aes_128_gcm_sha256),
        (2, init_all s2n_tls13_aes_256_gcm_sha384),
        (3, init_all s2n_tls13_chacha20_poly1305_sha256)]] ∧
    specSelect conn_s2 [0x13, 0x03, 0x13, 0x02, 0x13, 0x01] 3 2
      [Block.group [(1, init_all s2n_tls13_aes_128_gcm_sha256),
        (2, init_all s2n_tls13_aes_256_gcm_sha384),
        (3, init_all s2n_tls13_chacha20_poly1305_sha256)]] = some 3 ∧
    s2n_get_negotiated_server_index conn_s2 [0x13, 0x03, 0x13, 0x02, 0x13, 0x01] 3 2 =
      (3 : Int) :=
  ⟨by decide, by decide,
    claim_C1 conn_s2 [0x13, 0x03, 0x13, 0x02, 0x13, 0x01] 3 2
      [Block.group [(1, init_all s2n_tls13_aes_128_gcm_sha256),
        (2, init_all s2n_tls13_aes_256_gcm_sha384),
        (3, init_all s2n_tls13_chacha20_poly1305_sha256)]] 3 (by decide) (by decide)⟩

end S2N
